import Mathlib

/-!
# Falsa data generators: a shallow embedding

This file embeds the Rust data generators of `src/src/lib.rs` (the `falsa`
native module: `generate_groupby`, `generate_join_dataset_small`,
`generate_join_dataset_medium`, `generate_join_dataset_big`) and proves
properties of them.

Modelling conventions:
* `i64` values are `Int`; Rust `/` on `i64` (truncation toward zero) is
  `Int.tdiv`; `usize` quantities (slice indices, obtained in the source by
  `n as usize`) are `Nat` via `Int.toNat` (the generators document `n ≥ 0`).
* The ChaCha8 generator seeded by `ChaCha8Rng::seed_from_u64(seed)` is
  abstracted as a tape `Nat → Nat` of raw draws together with a position;
  each `Distribution::sample` call and each index draw of
  `SliceRandom::shuffle` / `choose` consumes exactly one tape cell and maps
  it into its range by modulus.  The tape is a pure function of the seed,
  so a generator applied to a tape models one call of the Rust function
  with the corresponding seed.
* `f64` sampling is modelled over `ℚ`: a draw is mapped into `[lo, hi]`
  with granularity `2^53` (the f64 mantissa width).
* Rust panics (`expect` on slice `get`, `unwrap` on `choose`) are modelled
  as `Except` errors distinct from the `Uniform::try_from` range error.
-/

namespace Falsa

/-- Failure modes of a generation call: `emptyRange` models
`Uniform::try_from` failing on an inverted range (returned as a Python
error through `?`), `indexingError` the `expect` on a failed slice `get`,
`unwrapFailed` the `unwrap` on `choose` of an empty pool (both panics). -/
inductive GenError where
  | emptyRange
  | indexingError
  | unwrapFailed
  deriving DecidableEq, Repr

/-- The state of one ChaCha8 stream: an abstract tape of raw draws and the
current position. -/
structure Rng where
  tape : Nat → Nat
  pos : Nat

/-- Consume one raw draw from the stream. -/
def Rng.draw (r : Rng) : Nat × Rng :=
  (r.tape r.pos, ⟨r.tape, r.pos + 1⟩)

/-- A `Uniform::<i64>` distribution over the closed range `lo..=hi`. -/
structure UniformInt where
  lo : Int
  hi : Int
  deriving DecidableEq, Repr

/-- `Uniform::<i64>::try_from(lo..=hi)`: fails iff the range is empty. -/
def uniformIntTryFrom (lo hi : Int) : Except GenError UniformInt :=
  if lo ≤ hi then .ok ⟨lo, hi⟩ else .error .emptyRange

/-- One `sample` of a uniform integer distribution: consumes one raw draw
and maps it into `[lo, hi]`. -/
def UniformInt.sample (d : UniformInt) (r : Rng) : Int × Rng :=
  let (x, r') := r.draw
  (d.lo + (x : Int) % (d.hi - d.lo + 1), r')

/-- A `Uniform::<f64>` distribution over the closed range `lo..=hi`,
modelled over `ℚ`. -/
structure UniformFloat where
  lo : ℚ
  hi : ℚ
  deriving DecidableEq, Repr

/-- `Uniform::<f64>::try_from(lo..=hi)`: fails iff the range is empty. -/
def uniformFloatTryFrom (lo hi : ℚ) : Except GenError UniformFloat :=
  if lo ≤ hi then .ok ⟨lo, hi⟩ else .error .emptyRange

/-- One `sample` of a uniform float distribution: consumes one raw draw
and maps it into `[lo, hi]` with granularity `2 ^ 53`. -/
def UniformFloat.sample (d : UniformFloat) (r : Rng) : ℚ × Rng :=
  let (x, r') := r.draw
  (d.lo + (d.hi - d.lo) * ((x % 2 ^ 53 : Nat) : ℚ) / 2 ^ 53, r')

/-- Decimal rendering of an `i64` by Rust's `Display`, i.e. `toString`. -/
def intDec (v : Int) : String := toString v

/-- Zero-pad a rendered number to a minimal width, as Rust's `{:0w}`. -/
def zeroPad (w : Nat) (s : String) : String :=
  String.mk (List.replicate (w - s.length) '0') ++ s

/-- Rust `format!("id{:03}", v)`. -/
def formatId3 (v : Int) : String := "id" ++ zeroPad 3 (intDec v)

/-- Rust `format!("id{:010}", v)`. -/
def formatId10 (v : Int) : String := "id" ++ zeroPad 10 (intDec v)

/-- Rust `format!("id{}", v)` (no padding). -/
def formatIdPlain (v : Int) : String := "id" ++ intDec v

/-- The null-gate pattern of the source: draw from `distr_nas`; if the
draw is `≥ nas` generate and emit the value, else emit a null and skip the
generator (`if distr_nas.sample(&mut rng) >= nas { .. } else { null }`). -/
def nullGate {α : Type} (dnas : UniformInt) (nas : Int) (gen : Rng → α × Rng)
    (r : Rng) : Option α × Rng :=
  let (g, r1) := dnas.sample r
  if g ≥ nas then
    let (v, r2) := gen r1
    (some v, r2)
  else
    (none, r1)

/-- One row of the group-by dataset (the nine columns of its schema, in
schema order). -/
structure GroupbyRow where
  id1 : Option String
  id2 : Option String
  id3 : Option String
  id4 : Option Int
  id5 : Option Int
  id6 : Option Int
  v1 : Int
  v2 : Int
  v3 : ℚ
  deriving DecidableEq, Repr

/-- The body of `generate_groupby`'s row loop: the nine per-column
generators in source order, threading the data RNG. -/
def groupbyRow (distr_k distr_nk distr_5 distr_15 : UniformInt)
    (distr_float : UniformFloat) (distr_nas : UniformInt) (nas : Int)
    (r : Rng) : GroupbyRow × Rng :=
  -- id1, string in form id123, 123 from 1-K
  let (id1, r) := nullGate distr_nas nas
    (fun r => let (v, r) := distr_k.sample r; (formatId3 v, r)) r
  -- id2, string in form id123, 123 from 1-N/K (source samples distr_nk)
  let (id2, r) := nullGate distr_nas nas
    (fun r => let (v, r) := distr_nk.sample r; (formatId3 v, r)) r
  -- id3, string in form id1234567890, number from 1-N/K
  let (id3, r) := nullGate distr_nas nas
    (fun r => let (v, r) := distr_nk.sample r; (formatId10 v, r)) r
  -- id4, 1-K, int
  let (id4, r) := nullGate distr_nas nas distr_k.sample r
  -- id5, 1-K, int
  let (id5, r) := nullGate distr_nas nas distr_k.sample r
  -- id6, 1-N/K, int
  let (id6, r) := nullGate distr_nas nas distr_nk.sample r
  -- v1, 1-5, int
  let (v1, r) := distr_5.sample r
  -- v2, 1-15, int
  let (v2, r) := distr_15.sample r
  -- v3, random float
  let (v3, r) := distr_float.sample r
  (⟨id1, id2, id3, id4, id5, id6, v1, v2, v3⟩, r)

/-- `for _i in 0..batch_size { .. }` for an infallible row body. -/
def genRows {α : Type} (step : Rng → α × Rng) : Nat → Rng → List α × Rng
  | 0, r => ([], r)
  | n + 1, r =>
    let (x, r1) := step r
    let (xs, r2) := genRows step n r1
    (x :: xs, r2)

/-- The embedding of `generate_groupby` (src/src/lib.rs:44-145): builds
the six distributions (each `try_from` short-circuiting on an empty
range, in source order), seeds the data RNG from the seed tape, and runs
the row loop `batch_size` times.  The returned batch is the list of rows;
each schema column is the projection of one field. -/
def generate_groupby (tape : Nat → Nat) (n k nas batch_size : Int) :
    Except GenError (List GroupbyRow) := do
  let distr_k ← uniformIntTryFrom 1 k
  let distr_nk ← uniformIntTryFrom 1 (n.tdiv k)
  let distr_5 ← uniformIntTryFrom 1 5
  let distr_15 ← uniformIntTryFrom 1 15
  let distr_float ← uniformFloatTryFrom 0 100
  let distr_nas ← uniformIntTryFrom 0 100
  let rng : Rng := ⟨tape, 0⟩
  return (genRows
    (groupbyRow distr_k distr_nk distr_5 distr_15 distr_float distr_nas nas)
    batch_size.toNat rng).1

/-- The Rust integer range `(lo..=hi).collect::<Vec<i64>>()`: empty when
`hi < lo`. -/
def intRange (lo hi : Int) : List Int :=
  (List.range (hi - lo + 1).toNat).map (fun i : Nat => lo + (i : Int))

/-- `Vec::swap(i, j)` (both indices must be in bounds; the source only
swaps in-bounds indices). -/
def swapIdx {α : Type} (l : List α) (i j : Nat) : List α :=
  match l.get? i, l.get? j with
  | some a, some b => (l.set i b).set j a
  | _, _ => l

/-- The steps of `SliceRandom::shuffle` for positions `i, i-1, …, 1`:
each step draws one index `j ∈ 0..=i` (one raw draw, reduced by modulus)
and swaps positions `i` and `j`. -/
def shuffleGo {α : Type} : Nat → List α → Rng → List α × Rng
  | 0, l, r => (l, r)
  | i + 1, l, r =>
    let (x, r1) := r.draw
    shuffleGo i (swapIdx l (i + 1) (x % (i + 2))) r1

/-- `SliceRandom::shuffle(&mut rng)`: Fisher–Yates from the top index
downwards. -/
def shuffle {α : Type} (l : List α) (r : Rng) : List α × Rng :=
  shuffleGo (l.length - 1) l r

/-- `slice.get(a..b)`: `some` of the subslice iff `a ≤ b ∧ b ≤ len`. -/
def sliceGet {α : Type} (l : List α) (a b : Nat) : Option (List α) :=
  if a ≤ b ∧ b ≤ l.length then some ((l.drop a).take (b - a)) else none

/-- `SliceRandom::choose(&mut rng)`: `none` on an empty slice (without
consuming a draw), otherwise one index draw reduced by modulus. -/
def choose {α : Type} (l : List α) (r : Rng) : Option α × Rng :=
  if l.isEmpty then (none, r)
  else
    let (x, r') := r.draw
    (l.get? (x % l.length), r')

/-- The `kx ++ kr` pool construction shared by the small/medium join
generators: two `get(..)` slices (each `expect`ed, a panic on failure)
concatenated. -/
def splitPool (l : List Int) (e1 a2 b2 : Nat) : Except GenError (List Int) :=
  match sliceGet l 0 e1, sliceGet l a2 b2 with
  | some kx, some kr => .ok (kx ++ kr)
  | _, _ => .error .indexingError

/-- A `get(0..e)` prefix slice, `expect`ed (used by the big join
generator's pools). -/
def prefixPool (l : List Int) (e : Nat) : Except GenError (List Int) :=
  match sliceGet l 0 e with
  | some p => .ok p
  | none => .error .indexingError

/-- The sampling pool of `generate_join_dataset_small`
(src/src/lib.rs:175-194): shuffle `1..=(n*11/10/1_000_000)` with the keys
stream, then concatenate the slices `[0, n*9/10/1e6)` and
`[n/1e6, n*11/10/1e6)`. -/
def smallK1Pool (keysTape : Nat → Nat) (n : Int) : Except GenError (List Int) :=
  let keysRng : Rng := ⟨keysTape, 0⟩
  let (k1, _) := shuffle (intRange 1 (((n * 11).tdiv 10).tdiv 1000000)) keysRng
  splitPool k1 (n.toNat * 9 / 10 / 1000000) (n.toNat / 1000000)
    (n.toNat * 11 / 10 / 1000000)

/-- One row of the small join dataset. -/
structure JoinSmallRow where
  id1 : Int
  id4 : String
  v2 : ℚ
  deriving DecidableEq, Repr

/-- The body of `generate_join_dataset_small`'s row loop: `choose` a key
(`unwrap`, a panic when the pool is empty), mirror it into `id4`, sample
`v2`. -/
def joinSmallRow (kx : List Int) (distr_float : UniformFloat) (r : Rng) :
    Except GenError (JoinSmallRow × Rng) :=
  let (k?, r) := choose kx r
  match k? with
  | none => .error .unwrapFailed
  | some k1 =>
    let (v2, r) := distr_float.sample r
    .ok (⟨k1, formatIdPlain k1, v2⟩, r)

/-- `for _i in 0..batch_size { .. }` for a row body that can panic. -/
def genRowsE {α : Type} (step : Rng → Except GenError (α × Rng)) :
    Nat → Rng → Except GenError (List α × Rng)
  | 0, r => .ok ([], r)
  | n + 1, r =>
    match step r with
    | .error e => .error e
    | .ok (x, r1) =>
      match genRowsE step n r1 with
      | .error e => .error e
      | .ok (xs, r2) => .ok (x :: xs, r2)

/-- The embedding of `generate_join_dataset_small`
(src/src/lib.rs:167-228). -/
def generate_join_dataset_small (tape keysTape : Nat → Nat)
    (n batch_size : Int) : Except GenError (List JoinSmallRow) := do
  let kx ← smallK1Pool keysTape n
  let distr_float ← uniformFloatTryFrom 1 100
  let rng : Rng := ⟨tape, 0⟩
  let (rows, _) ← genRowsE (joinSmallRow kx distr_float) batch_size.toNat rng
  return rows

/-- The two sampling pools of `generate_join_dataset_medium`
(src/src/lib.rs:256-291): `k1` over domain `1..=(n*11/10/1e6)` and `k2`
over domain `1..=(n*11/10/1e3)` are shuffled in sequence from the same
keys stream; both are then sliced with bounds divided by `1_000_000` —
also `k2`, exactly as in the source. -/
def mediumPools (keysTape : Nat → Nat) (n : Int) :
    Except GenError (List Int × List Int) :=
  let keysRng : Rng := ⟨keysTape, 0⟩
  let (k1, keysRng) := shuffle (intRange 1 (((n * 11).tdiv 10).tdiv 1000000)) keysRng
  let (k2, _) := shuffle (intRange 1 (((n * 11).tdiv 10).tdiv 1000)) keysRng
  do
    let k1x ← splitPool k1 (n.toNat * 9 / 10 / 1000000) (n.toNat / 1000000)
      (n.toNat * 11 / 10 / 1000000)
    let k2x ← splitPool k2 (n.toNat * 9 / 10 / 1000000) (n.toNat / 1000000)
      (n.toNat * 11 / 10 / 1000000)
    return (k1x, k2x)

/-- One row of the medium join dataset. -/
structure JoinMediumRow where
  id1 : Int
  id2 : Int
  id4 : String
  id5 : String
  v2 : ℚ
  deriving DecidableEq, Repr

/-- The body of `generate_join_dataset_medium`'s row loop. -/
def joinMediumRow (k1x k2x : List Int) (distr_float : UniformFloat)
    (r : Rng) : Except GenError (JoinMediumRow × Rng) :=
  let (k1?, r) := choose k1x r
  match k1? with
  | none => .error .unwrapFailed
  | some k1 =>
    let (k2?, r) := choose k2x r
    match k2? with
    | none => .error .unwrapFailed
    | some k2 =>
      let (v2, r) := distr_float.sample r
      .ok (⟨k1, k2, formatIdPlain k1, formatIdPlain k2, v2⟩, r)

/-- The embedding of `generate_join_dataset_medium`
(src/src/lib.rs:250-337). -/
def generate_join_dataset_medium (tape keysTape : Nat → Nat)
    (n batch_size : Int) : Except GenError (List JoinMediumRow) := do
  let (k1x, k2x) ← mediumPools keysTape n
  let distr_float ← uniformFloatTryFrom 1 100
  let rng : Rng := ⟨tape, 0⟩
  let (rows, _) ← genRowsE (joinMediumRow k1x k2x distr_float) batch_size.toNat rng
  return rows

/-- The three sampling pools of `generate_join_dataset_big`
(src/src/lib.rs:371-403): three shuffled domains (scales 1e6, 1e3, 1),
each reduced to its prefix `[0, n/scale)` — no middle-decile skip. -/
def bigPools (keysTape : Nat → Nat) (n : Int) :
    Except GenError (List Int × List Int × List Int) :=
  let keysRng : Rng := ⟨keysTape, 0⟩
  let (k1, keysRng) := shuffle (intRange 1 (((n * 11).tdiv 10).tdiv 1000000)) keysRng
  let (k2, keysRng) := shuffle (intRange 1 (((n * 11).tdiv 10).tdiv 1000)) keysRng
  let (k3, _) := shuffle (intRange 1 ((n * 11).tdiv 10)) keysRng
  do
    let p1 ← prefixPool k1 (n.toNat / 1000000)
    let p2 ← prefixPool k2 (n.toNat / 1000)
    let p3 ← prefixPool k3 n.toNat
    return (p1, p2, p3)

/-- One row of the big join dataset (seven columns, schema order). -/
structure JoinBigRow where
  id1 : Option Int
  id2 : Option Int
  id3 : Option Int
  id4 : String
  id5 : String
  id6 : String
  v2 : Option ℚ
  deriving DecidableEq, Repr

/-- The body of `generate_join_dataset_big`'s row loop
(src/src/lib.rs:421-450): the three keys are chosen (and `unwrap`ped)
unconditionally first; then the null gates for `id1`, `id2`, `id3` emit
the already-chosen keys; the string ids mirror `k1`, `k2`, and — as in
source line 444 — `id6` mirrors `k2`; finally `v2` is gate-then-sample. -/
def joinBigRow (p1 p2 p3 : List Int) (distr_nas : UniformInt)
    (distr_float : UniformFloat) (nas : Int) (r : Rng) :
    Except GenError (JoinBigRow × Rng) :=
  let (k1?, r) := choose p1 r
  match k1? with
  | none => .error .unwrapFailed
  | some k1 =>
    let (k2?, r) := choose p2 r
    match k2? with
    | none => .error .unwrapFailed
    | some k2 =>
      let (k3?, r) := choose p3 r
      match k3? with
      | none => .error .unwrapFailed
      | some k3 =>
        let (id1, r) := nullGate distr_nas nas (fun r => (k1, r)) r
        let (id2, r) := nullGate distr_nas nas (fun r => (k2, r)) r
        let (id3, r) := nullGate distr_nas nas (fun r => (k3, r)) r
        let id4 := formatIdPlain k1
        let id5 := formatIdPlain k2
        let id6 := formatIdPlain k2
        let (v2, r) := nullGate distr_nas nas distr_float.sample r
        .ok (⟨id1, id2, id3, id4, id5, id6, v2⟩, r)

/-- The embedding of `generate_join_dataset_big`
(src/src/lib.rs:362-477). -/
def generate_join_dataset_big (tape keysTape : Nat → Nat)
    (n nas batch_size : Int) : Except GenError (List JoinBigRow) := do
  let (p1, p2, p3) ← bigPools keysTape n
  let distr_float ← uniformFloatTryFrom 1 100
  let distr_nas ← uniformIntTryFrom 0 100
  let rng : Rng := ⟨tape, 0⟩
  let (rows, _) ←
    genRowsE (joinBigRow p1 p2 p3 distr_nas distr_float nas) batch_size.toNat rng
  return rows

/-- An Arrow data type as used by the generators' schemas. -/
inductive ArrowType where
  | int64
  | utf8
  | float64
  deriving DecidableEq, Repr

/-- One Arrow schema field: name, type, nullability. -/
structure SchemaField where
  name : String
  dtype : ArrowType
  nullable : Bool
  deriving DecidableEq, Repr

/-- The schema built by `generate_groupby` (src/src/lib.rs:117-127). -/
def groupbySchema : List SchemaField :=
  [⟨"id1", .utf8, true⟩, ⟨"id2", .utf8, true⟩, ⟨"id3", .utf8, true⟩,
   ⟨"id4", .int64, true⟩, ⟨"id5", .int64, true⟩, ⟨"id6", .int64, true⟩,
   ⟨"v1", .int64, false⟩, ⟨"v2", .int64, false⟩, ⟨"v3", .float64, false⟩]

/-- The schema built by `generate_join_dataset_small`
(src/src/lib.rs:211-215). -/
def joinSmallSchema : List SchemaField :=
  [⟨"id1", .int64, false⟩, ⟨"id4", .utf8, false⟩, ⟨"v2", .float64, false⟩]

/-- The schema built by `generate_join_dataset_medium`
(src/src/lib.rs:316-322). -/
def joinMediumSchema : List SchemaField :=
  [⟨"id1", .int64, false⟩, ⟨"id2", .int64, false⟩,
   ⟨"id4", .utf8, false⟩, ⟨"id5", .utf8, false⟩, ⟨"v2", .float64, false⟩]

/-- The schema built by `generate_join_dataset_big`
(src/src/lib.rs:452-460). -/
def joinBigSchema : List SchemaField :=
  [⟨"id1", .int64, true⟩, ⟨"id2", .int64, true⟩, ⟨"id3", .int64, true⟩,
   ⟨"id4", .utf8, false⟩, ⟨"id5", .utf8, false⟩, ⟨"id6", .utf8, false⟩,
   ⟨"v2", .float64, true⟩]

/-- From the spec's words (§6): the `groupby` schema
`id1:Utf8?, id2:Utf8?, id3:Utf8?, id4:Int64?, id5:Int64?, id6:Int64?,
v1:Int64, v2:Int64, v3:Float64`. -/
def specGroupbySchema : List SchemaField :=
  [⟨"id1", .utf8, true⟩, ⟨"id2", .utf8, true⟩, ⟨"id3", .utf8, true⟩,
   ⟨"id4", .int64, true⟩, ⟨"id5", .int64, true⟩, ⟨"id6", .int64, true⟩,
   ⟨"v1", .int64, false⟩, ⟨"v2", .int64, false⟩, ⟨"v3", .float64, false⟩]

/-- From the spec's words (§6): the `join-small` schema
`id1:Int64, id4:Utf8, v2:Float64`. -/
def specJoinSmallSchema : List SchemaField :=
  [⟨"id1", .int64, false⟩, ⟨"id4", .utf8, false⟩, ⟨"v2", .float64, false⟩]

/-- From the spec's words (§6): the `join-medium` schema
`id1:Int64, id2:Int64, id4:Utf8, id5:Utf8, v2:Float64`. -/
def specJoinMediumSchema : List SchemaField :=
  [⟨"id1", .int64, false⟩, ⟨"id2", .int64, false⟩,
   ⟨"id4", .utf8, false⟩, ⟨"id5", .utf8, false⟩, ⟨"v2", .float64, false⟩]

/-- From the spec's words (§6): the `join-big` schema
`id1:Int64?, id2:Int64?, id3:Int64?, id4:Utf8, id5:Utf8, id6:Utf8,
v2:Float64?`. -/
def specJoinBigSchema : List SchemaField :=
  [⟨"id1", .int64, true⟩, ⟨"id2", .int64, true⟩, ⟨"id3", .int64, true⟩,
   ⟨"id4", .utf8, false⟩, ⟨"id5", .utf8, false⟩, ⟨"id6", .utf8, false⟩,
   ⟨"v2", .float64, true⟩]

/-! ## Basic lemmas -/

/-- The all-zeros tape, used to instantiate concrete seeds. -/
def zeroTape : Nat → Nat := fun _ => 0

theorem intRange_length (lo hi : Int) :
    (intRange lo hi).length = (hi - lo + 1).toNat := by
  rw [intRange, List.length_map, List.length_range]

theorem swapIdx_length {α : Type} (l : List α) (i j : Nat) :
    (swapIdx l i j).length = l.length := by
  unfold swapIdx
  cases h1 : l.get? i <;> cases h2 : l.get? j <;> simp

theorem shuffleGo_length {α : Type} :
    ∀ (m : Nat) (l : List α) (r : Rng),
      (shuffleGo m l r).1.length = l.length
  | 0, _, _ => rfl
  | m + 1, l, r => by
    rw [shuffleGo, shuffleGo_length m]
    exact swapIdx_length ..

theorem shuffle_length {α : Type} (l : List α) (r : Rng) :
    (shuffle l r).1.length = l.length :=
  shuffleGo_length ..

theorem shuffleGo_tape {α : Type} :
    ∀ (m : Nat) (l : List α) (r : Rng), (shuffleGo m l r).2.tape = r.tape
  | 0, _, _ => rfl
  | m + 1, l, r => by rw [shuffleGo, shuffleGo_tape m]; rfl

theorem sliceGet_eq_some {α : Type} (l : List α) (a b : Nat)
    (hab : a ≤ b) (hb : b ≤ l.length) :
    sliceGet l a b = some ((l.drop a).take (b - a)) := by
  simp [sliceGet, hab, hb]

theorem sliceGet_length {α : Type} (l : List α) (a b : Nat) (s : List α)
    (h : sliceGet l a b = some s) : s.length = b - a := by
  unfold sliceGet at h
  split at h
  · rename_i hc
    cases h
    simp [Nat.sub_add_cancel, Nat.le_sub_of_add_le]
    omega
  · cases h

theorem splitPool_ok (l : List Int) (e1 a2 b2 : Nat)
    (h1 : e1 ≤ l.length) (h2 : a2 ≤ b2) (h3 : b2 ≤ l.length) :
    ∃ p, splitPool l e1 a2 b2 = .ok p ∧ p.length = e1 + (b2 - a2) := by
  have hs1 := sliceGet_eq_some l 0 e1 (Nat.zero_le _) h1
  have hs2 := sliceGet_eq_some l a2 b2 h2 h3
  refine ⟨_, by rw [splitPool, hs1, hs2], ?_⟩
  have l1 := sliceGet_length l 0 e1 _ hs1
  have l2 := sliceGet_length l a2 b2 _ hs2
  rw [List.length_append, l1, l2]
  omega

theorem prefixPool_ok (l : List Int) (e : Nat) (he : e ≤ l.length) :
    prefixPool l e = .ok (l.take e) := by
  have hs := sliceGet_eq_some l 0 e (Nat.zero_le _) he
  rw [prefixPool, hs]
  simp

theorem genRows_length {α : Type} (step : Rng → α × Rng) :
    ∀ (m : Nat) (r : Rng), (genRows step m r).1.length = m
  | 0, _ => rfl
  | m + 1, r => by
    rw [genRows]
    simp only [List.length_cons, genRows_length step m]

theorem genRowsE_length {α : Type} (step : Rng → Except GenError (α × Rng)) :
    ∀ (m : Nat) (r : Rng) (xs : List α) (r' : Rng),
      genRowsE step m r = .ok (xs, r') → xs.length = m
  | 0, r, xs, r', h => by
    cases h
    rfl
  | m + 1, r, xs, r', h => by
    rw [genRowsE] at h
    cases hs : step r with
    | error e => rw [hs] at h; cases h
    | ok p =>
      obtain ⟨x, r1⟩ := p
      rw [hs] at h
      dsimp only at h
      cases hrec : genRowsE step m r1 with
      | error e => rw [hrec] at h; cases h
      | ok q =>
        obtain ⟨q1, q2⟩ := q
        rw [hrec] at h
        dsimp only at h
        rw [Except.ok.injEq, Prod.mk.injEq] at h
        obtain ⟨hxs, hr⟩ := h
        subst hxs
        simp [genRowsE_length step m r1 q1 q2 hrec]

theorem genRowsE_mem {α : Type} (step : Rng → Except GenError (α × Rng))
    (P : α → Prop)
    (hstep : ∀ r x r', step r = .ok (x, r') → P x) :
    ∀ (m : Nat) (r : Rng) (xs : List α) (r' : Rng),
      genRowsE step m r = .ok (xs, r') → ∀ x ∈ xs, P x
  | 0, r, xs, r', h => by
    cases h
    intro x hx
    cases hx
  | m + 1, r, xs, r', h => by
    rw [genRowsE] at h
    cases hs : step r with
    | error e => rw [hs] at h; cases h
    | ok p =>
      obtain ⟨x0, r1⟩ := p
      rw [hs] at h
      dsimp only at h
      cases hrec : genRowsE step m r1 with
      | error e => rw [hrec] at h; cases h
      | ok q =>
        obtain ⟨q1, q2⟩ := q
        rw [hrec] at h
        dsimp only at h
        rw [Except.ok.injEq, Prod.mk.injEq] at h
        obtain ⟨hxs, hr⟩ := h
        subst hxs
        intro x hx
        rcases List.mem_cons.mp hx with rfl | h
        · exact hstep r _ _ hs
        · exact genRowsE_mem step P hstep m r1 q1 q2 hrec x h

theorem genRows_mem {α : Type} (step : Rng → α × Rng) (P : α → Prop)
    (hstep : ∀ r, P (step r).1) :
    ∀ (m : Nat) (r : Rng), ∀ x ∈ (genRows step m r).1, P x
  | 0, _, x, hx => by cases hx
  | m + 1, r, x, hx => by
    rw [genRows] at hx
    rcases List.mem_cons.mp hx with h | h
    · subst h
      exact hstep r
    · exact genRows_mem step P hstep m _ x h

theorem swapIdx_mem {α : Type} {l : List α} {i j : Nat} {x : α}
    (h : x ∈ swapIdx l i j) : x ∈ l := by
  unfold swapIdx at h
  cases h1 : l.get? i with
  | none => rw [h1] at h; exact h
  | some a =>
    cases h2 : l.get? j with
    | none => rw [h1, h2] at h; exact h
    | some b =>
      rw [h1, h2] at h
      rcases List.mem_or_eq_of_mem_set h with h' | h'
      · rcases List.mem_or_eq_of_mem_set h' with h'' | h''
        · exact h''
        · exact h'' ▸ List.get?_mem h2
      · exact h' ▸ List.get?_mem h1

theorem shuffleGo_mem {α : Type} :
    ∀ (m : Nat) (l : List α) (r : Rng) (x : α),
      x ∈ (shuffleGo m l r).1 → x ∈ l
  | 0, _, _, _, h => h
  | m + 1, l, r, x, h => by
    rw [shuffleGo] at h
    exact swapIdx_mem (shuffleGo_mem m _ _ x h)

theorem shuffle_mem {α : Type} {l : List α} {r : Rng} {x : α}
    (h : x ∈ (shuffle l r).1) : x ∈ l :=
  shuffleGo_mem _ _ _ _ h

theorem intRange_mem {lo hi x : Int} (h : x ∈ intRange lo hi) :
    lo ≤ x ∧ x ≤ hi := by
  unfold intRange at h
  rcases List.mem_map.mp h with ⟨i, hi', rfl⟩
  have hlt : i < (hi - lo + 1).toNat := List.mem_range.mp hi'
  have : (i : Int) < hi - lo + 1 := Int.lt_toNat.mp hlt
  constructor
  · omega
  · omega

/-- A `choose` on a non-empty slice returns the element at the drawn
index. -/
theorem choose_nonempty {α : Type} (l : List α) (r : Rng) (hl : l ≠ []) :
    choose l r = (l.get? (r.tape r.pos % l.length), ⟨r.tape, r.pos + 1⟩) := by
  rw [choose, if_neg (by simpa using hl)]
  rfl

theorem choose_nonempty_some {α : Type} (l : List α) (r : Rng) (hl : l ≠ []) :
    ∃ x, choose l r = (some x, ⟨r.tape, r.pos + 1⟩) ∧ x ∈ l := by
  have hlen : 0 < l.length := List.length_pos.mpr hl
  have hidx : r.tape r.pos % l.length < l.length := Nat.mod_lt _ hlen
  refine ⟨l.get ⟨_, hidx⟩, ?_, List.get_mem l _ hidx⟩
  rw [choose_nonempty l r hl, List.get?_eq_get hidx]

/-- The branch structure of the null gate, written as one equation: the
gate draw comes first (one tape cell), then either the generator runs on
the advanced stream or it is skipped. -/
theorem nullGate_eq {α : Type} (dnas : UniformInt) (nas : Int)
    (gen : Rng → α × Rng) (r : Rng) :
    nullGate dnas nas gen r =
      if dnas.lo + ((r.tape r.pos : Nat) : Int) % (dnas.hi - dnas.lo + 1) ≥ nas
      then (some (gen ⟨r.tape, r.pos + 1⟩).1, (gen ⟨r.tape, r.pos + 1⟩).2)
      else (none, ⟨r.tape, r.pos + 1⟩) := by
  unfold nullGate UniformInt.sample Rng.draw
  dsimp only

/-- The null gate over a pure generator returns either `none` or the
generator's constant. -/
theorem nullGate_const {α : Type} (dnas : UniformInt) (nas : Int) (k : α)
    (r : Rng) (v : α)
    (h : (nullGate dnas nas (fun r => (k, r)) r).1 = some v) : v = k := by
  rw [nullGate_eq] at h
  split_ifs at h
  exact ((Option.some.injEq _ _).mp h).symm

/-- If every step succeeds, the row loop succeeds with exactly the
requested number of rows. -/
theorem genRowsE_ok {α : Type} (step : Rng → Except GenError (α × Rng))
    (hstep : ∀ r, ∃ x r', step r = .ok (x, r')) :
    ∀ (m : Nat) (r : Rng), ∃ xs r', genRowsE step m r = .ok (xs, r') ∧
      xs.length = m
  | 0, r => ⟨[], r, rfl, rfl⟩
  | m + 1, r => by
    obtain ⟨x, r1, hs⟩ := hstep r
    obtain ⟨xs, r2, hrec, hlen⟩ := genRowsE_ok step hstep m r1
    refine ⟨x :: xs, r2, ?_, by simp [hlen]⟩
    rw [genRowsE, hs]
    dsimp only
    rw [hrec]

/-- Division transfer: the `i64` computation `n * 11 / 10 / s` agrees
with the `usize` computation on `n.toNat` when `n ≥ 0`. -/
theorem natCast_tdiv (a b : Nat) :
    ((a : Int)).tdiv ((b : Int)) = ((a / b : Nat) : Int) :=
  (Int.ofNat_tdiv a b).symm

theorem domain_toNat (n : Int) (hn : 0 ≤ n) (s : Nat) :
    (((n * 11).tdiv 10).tdiv (s : Int)).toNat = n.toNat * 11 / 10 / s := by
  obtain ⟨m, rfl⟩ := Int.eq_ofNat_of_zero_le hn
  have h1 : ((m : Int) * 11).tdiv 10 = ((m * 11 / 10 : Nat) : Int) := by
    rw [show ((m : Int) * 11) = ((m * 11 : Nat) : Int) by push_cast; ring,
      show (10 : Int) = ((10 : Nat) : Int) from rfl, natCast_tdiv]
  rw [h1, natCast_tdiv, Int.toNat_natCast, Int.toNat_natCast]

/-- `Except.ok` bound into a continuation reduces. -/
theorem ok_bind {ε α β : Type} (a : α) (f : α → Except ε β) :
    (Except.ok a : Except ε α) >>= f = f a := rfl

theorem domain_toNat_1e6 (n : Int) (hn : 0 ≤ n) :
    (((n * 11).tdiv 10).tdiv 1000000).toNat = n.toNat * 11 / 10 / 1000000 := by
  have h := domain_toNat n hn 1000000
  rwa [show ((1000000 : Nat) : Int) = (1000000 : Int) from rfl] at h

theorem domain_toNat_1e3 (n : Int) (hn : 0 ≤ n) :
    (((n * 11).tdiv 10).tdiv 1000).toNat = n.toNat * 11 / 10 / 1000 := by
  have h := domain_toNat n hn 1000
  rwa [show ((1000 : Nat) : Int) = (1000 : Int) from rfl] at h

theorem domain_toNat_one (n : Int) (hn : 0 ≤ n) :
    ((n * 11).tdiv 10).toNat = n.toNat * 11 / 10 := by
  have h := domain_toNat n hn 1
  simp only [Nat.cast_one, Int.tdiv_one, Nat.div_one] at h
  exact h

theorem intRange_one_length (d : Int) :
    (intRange 1 d).length = d.toNat := by
  rw [intRange_length]
  congr 1
  omega

/-! ## C8: schema exactness -/

/-- **C8.** Each generator's schema (names, order, types, nullability)
equals the spec's fixed schema for its variant exactly. -/
theorem schema_exactness :
    groupbySchema = specGroupbySchema ∧
    joinSmallSchema = specJoinSmallSchema ∧
    joinMediumSchema = specJoinMediumSchema ∧
    joinBigSchema = specJoinBigSchema := by
  refine ⟨rfl, rfl, rfl, rfl⟩

/-! ## C1: determinism -/

/-- **C1.** Determinism: two calls of the same generator with identical
arguments (same seed tape, same parameters, same batch size) produce
identical batches — for `generate_groupby` stated column-wise as well:
every column has the same values and the same null positions in both
runs.  The embedding is a pure function of the seed tape and parameters
(the Rust functions build all of their state — RNG streams, pools,
distributions — from the arguments alone), so equal arguments force equal
batches. -/
theorem generators_deterministic :
    (∀ (t : Nat → Nat) (n k nas bs : Int) (b1 b2 : List GroupbyRow),
      generate_groupby t n k nas bs = .ok b1 →
      generate_groupby t n k nas bs = .ok b2 →
      b1 = b2 ∧
      b1.map GroupbyRow.id1 = b2.map GroupbyRow.id1 ∧
      b1.map GroupbyRow.id2 = b2.map GroupbyRow.id2 ∧
      b1.map GroupbyRow.id3 = b2.map GroupbyRow.id3 ∧
      b1.map GroupbyRow.id4 = b2.map GroupbyRow.id4 ∧
      b1.map GroupbyRow.id5 = b2.map GroupbyRow.id5 ∧
      b1.map GroupbyRow.id6 = b2.map GroupbyRow.id6 ∧
      b1.map GroupbyRow.v1 = b2.map GroupbyRow.v1 ∧
      b1.map GroupbyRow.v2 = b2.map GroupbyRow.v2 ∧
      b1.map GroupbyRow.v3 = b2.map GroupbyRow.v3) ∧
    (∀ (t kt : Nat → Nat) (n bs : Int) (b1 b2 : List JoinSmallRow),
      generate_join_dataset_small t kt n bs = .ok b1 →
      generate_join_dataset_small t kt n bs = .ok b2 → b1 = b2) ∧
    (∀ (t kt : Nat → Nat) (n bs : Int) (b1 b2 : List JoinMediumRow),
      generate_join_dataset_medium t kt n bs = .ok b1 →
      generate_join_dataset_medium t kt n bs = .ok b2 → b1 = b2) ∧
    (∀ (t kt : Nat → Nat) (n nas bs : Int) (b1 b2 : List JoinBigRow),
      generate_join_dataset_big t kt n nas bs = .ok b1 →
      generate_join_dataset_big t kt n nas bs = .ok b2 → b1 = b2) := by
  refine ⟨?_, ?_, ?_, ?_⟩
  · intro t n k nas bs b1 b2 h1 h2
    have hb : b1 = b2 := (Except.ok.injEq _ _).mp (h1.symm.trans h2)
    subst hb
    exact ⟨rfl, rfl, rfl, rfl, rfl, rfl, rfl, rfl, rfl, rfl⟩
  · intro t kt n bs b1 b2 h1 h2
    exact (Except.ok.injEq _ _).mp (h1.symm.trans h2)
  · intro t kt n bs b1 b2 h1 h2
    exact (Except.ok.injEq _ _).mp (h1.symm.trans h2)
  · intro t kt n nas bs b1 b2 h1 h2
    exact (Except.ok.injEq _ _).mp (h1.symm.trans h2)

/-- Witness for C1: concrete identical calls (batch size 0) at which the
hypotheses hold. -/
theorem generators_deterministic_witness :
    ([] : List GroupbyRow) = [] ∧ ([] : List JoinSmallRow) = [] ∧
    ([] : List JoinMediumRow) = [] ∧ ([] : List JoinBigRow) = [] :=
  ⟨(generators_deterministic.1 zeroTape 100 10 0 0 [] [] rfl rfl).1,
   generators_deterministic.2.1 zeroTape zeroTape 0 0 [] [] rfl rfl,
   generators_deterministic.2.2.1 zeroTape zeroTape 0 0 [] [] rfl rfl,
   generators_deterministic.2.2.2 zeroTape zeroTape 0 0 0 [] [] rfl rfl⟩

/-! ## C4: the big-variant key pools -/

/-- A prefix slice of a shuffled `1..=d` range: always succeeds when the
requested prefix fits, has exactly the requested length, and draws its
elements from `[1, d]`. -/
theorem prefixPool_shuffle_ok (d : Int) (e : Nat) (r : Rng)
    (he : e ≤ d.toNat) :
    ∃ p, prefixPool (shuffle (intRange 1 d) r).1 e = .ok p ∧
      p.length = e ∧ ∀ x ∈ p, 1 ≤ x ∧ x ≤ d := by
  have hlen : (shuffle (intRange 1 d) r).1.length = d.toNat := by
    rw [shuffle_length, intRange_one_length]
  have he' : e ≤ (shuffle (intRange 1 d) r).1.length := by rw [hlen]; exact he
  refine ⟨_, prefixPool_ok _ e he', ?_, ?_⟩
  · rw [List.length_take]
    omega
  · intro x hx
    exact intRange_mem (shuffle_mem (List.take_subset _ _ hx))

/-- **C4 counterexample.** At `keys_seed` tape `zeroTape` and `n = 10`,
the third key pool of `generate_join_dataset_big` (scale 1) is the
prefix `[2, …, 11]` of the shuffled permutation of `1..=11` — not the
plain sequence `1..floor(n/1)` = `[1, …, 10]` the claim asserts. -/
theorem big_pools_shuffled_counterexample :
    bigPools zeroTape 10 = .ok ([], [], [2, 3, 4, 5, 6, 7, 8, 9, 10, 11]) ∧
    ¬ ([2, 3, 4, 5, 6, 7, 8, 9, 10, 11] : List Int) =
      intRange 1 ((10 : Int).tdiv 1) := by
  constructor
  · rfl
  · decide

/-- **C4 (amended).** In `generate_join_dataset_big` the three sampling
pools are built for every `n ≥ 0` with no gap-skip, but from shuffled
domains: pool `i` is the prefix of length `floor(n/scaleᵢ)` of the
keys-seeded permutation of `1..=floor(n·1.1/scaleᵢ)` (so its elements lie
in `[1, floor(n·1.1/scaleᵢ)]`, not necessarily in `[1, floor(n/scaleᵢ)]`),
and each row's non-null key values are members of the corresponding pool
(sampled with replacement by one uniform index draw per key). -/
theorem big_pools_amended (kt : Nat → Nat) (n : Int) (hn : 0 ≤ n) :
    ∃ p1 p2 p3, bigPools kt n = .ok (p1, p2, p3) ∧
      p1.length = n.toNat / 1000000 ∧
      p2.length = n.toNat / 1000 ∧
      p3.length = n.toNat ∧
      (∀ x ∈ p1, 1 ≤ x ∧ x ≤ ((n * 11).tdiv 10).tdiv 1000000) ∧
      (∀ x ∈ p2, 1 ≤ x ∧ x ≤ ((n * 11).tdiv 10).tdiv 1000) ∧
      (∀ x ∈ p3, 1 ≤ x ∧ x ≤ (n * 11).tdiv 10) ∧
      (∀ (dnas : UniformInt) (df : UniformFloat) (nas : Int) (r : Rng)
          (row : JoinBigRow) (r' : Rng),
        joinBigRow p1 p2 p3 dnas df nas r = .ok (row, r') →
        (∀ v, row.id1 = some v → v ∈ p1) ∧
        (∀ v, row.id2 = some v → v ∈ p2) ∧
        (∀ v, row.id3 = some v → v ∈ p3)) := by
  have hm : ∀ s : Nat, n.toNat / s ≤ n.toNat * 11 / 10 / s := by
    intro s
    apply Nat.div_le_div_right
    calc n.toNat = n.toNat * 10 / 10 := by omega
    _ ≤ n.toNat * 11 / 10 :=
      Nat.div_le_div_right (Nat.mul_le_mul_left _ (by omega))
  have hd1 : n.toNat / 1000000 ≤ (((n * 11).tdiv 10).tdiv 1000000).toNat := by
    rw [domain_toNat_1e6 n hn]
    exact hm 1000000
  have hd2 : n.toNat / 1000 ≤ (((n * 11).tdiv 10).tdiv 1000).toNat := by
    rw [domain_toNat_1e3 n hn]
    exact hm 1000
  have hd3 : n.toNat ≤ ((n * 11).tdiv 10).toNat := by
    rw [domain_toNat_one n hn]
    simpa using hm 1
  obtain ⟨p1, hp1, hl1, hb1⟩ :=
    prefixPool_shuffle_ok (((n * 11).tdiv 10).tdiv 1000000)
      (n.toNat / 1000000) ⟨kt, 0⟩ hd1
  obtain ⟨p2, hp2, hl2, hb2⟩ :=
    prefixPool_shuffle_ok (((n * 11).tdiv 10).tdiv 1000)
      (n.toNat / 1000)
      (shuffle (intRange 1 (((n * 11).tdiv 10).tdiv 1000000)) ⟨kt, 0⟩).2 hd2
  obtain ⟨p3, hp3, hl3, hb3⟩ :=
    prefixPool_shuffle_ok ((n * 11).tdiv 10) n.toNat
      (shuffle (intRange 1 (((n * 11).tdiv 10).tdiv 1000))
        (shuffle (intRange 1 (((n * 11).tdiv 10).tdiv 1000000)) ⟨kt, 0⟩).2).2 hd3
  refine ⟨p1, p2, p3, ?_, hl1, hl2, hl3, hb1, hb2, hb3, ?_⟩
  · rw [bigPools]
    dsimp only
    simp only [hp1, ok_bind, hp2, hp3]
    rfl
  · intro dnas df nas r row r' hrow
    rw [joinBigRow] at hrow
    cases hc1 : choose p1 r with
    | mk k1? r1 =>
      rw [hc1] at hrow
      cases k1? with
      | none => cases hrow
      | some k1 =>
        dsimp only at hrow
        cases hc2 : choose p2 r1 with
        | mk k2? r2 =>
          rw [hc2] at hrow
          cases k2? with
          | none => cases hrow
          | some k2 =>
            dsimp only at hrow
            cases hc3 : choose p3 r2 with
            | mk k3? r3 =>
              rw [hc3] at hrow
              cases k3? with
              | none => cases hrow
              | some k3 =>
                dsimp only at hrow
                have hk1 : k1 ∈ p1 := by
                  have hne : p1 ≠ [] := by
                    intro hemp
                    rw [hemp] at hc1
                    simp [choose] at hc1
                  obtain ⟨x, hcx, hxmem⟩ := choose_nonempty_some p1 r hne
                  rw [hcx] at hc1
                  cases hc1
                  exact hxmem
                have hk2 : k2 ∈ p2 := by
                  have hne : p2 ≠ [] := by
                    intro hemp
                    rw [hemp] at hc2
                    simp [choose] at hc2
                  obtain ⟨x, hcx, hxmem⟩ := choose_nonempty_some p2 r1 hne
                  rw [hcx] at hc2
                  cases hc2
                  exact hxmem
                have hk3 : k3 ∈ p3 := by
                  have hne : p3 ≠ [] := by
                    intro hemp
                    rw [hemp] at hc3
                    simp [choose] at hc3
                  obtain ⟨x, hcx, hxmem⟩ := choose_nonempty_some p3 r2 hne
                  rw [hcx] at hc3
                  cases hc3
                  exact hxmem
                rw [Except.ok.injEq, Prod.mk.injEq] at hrow
                obtain ⟨hrow1, _⟩ := hrow
                subst hrow1
                refine ⟨?_, ?_, ?_⟩
                · intro v hv
                  have := nullGate_const _ _ _ _ _ hv
                  exact this ▸ hk1
                · intro v hv
                  have := nullGate_const _ _ _ _ _ hv
                  exact this ▸ hk2
                · intro v hv
                  have := nullGate_const _ _ _ _ _ hv
                  exact this ▸ hk3

/-- Witness for C4 (amended) at the concrete input `kt = zeroTape`,
`n = 10`. -/
theorem big_pools_amended_witness :
    ∃ p1 p2 p3, bigPools zeroTape 10 = .ok (p1, p2, p3) ∧
      p1.length = (10 : Int).toNat / 1000000 ∧
      p2.length = (10 : Int).toNat / 1000 ∧
      p3.length = (10 : Int).toNat ∧
      (∀ x ∈ p1, 1 ≤ x ∧ x ≤ (((10 : Int) * 11).tdiv 10).tdiv 1000000) ∧
      (∀ x ∈ p2, 1 ≤ x ∧ x ≤ (((10 : Int) * 11).tdiv 10).tdiv 1000) ∧
      (∀ x ∈ p3, 1 ≤ x ∧ x ≤ ((10 : Int) * 11).tdiv 10) ∧
      (∀ (dnas : UniformInt) (df : UniformFloat) (nas : Int) (r : Rng)
          (row : JoinBigRow) (r' : Rng),
        joinBigRow p1 p2 p3 dnas df nas r = .ok (row, r') →
        (∀ v, row.id1 = some v → v ∈ p1) ∧
        (∀ v, row.id2 = some v → v ∈ p2) ∧
        (∀ v, row.id3 = some v → v ∈ p3)) :=
  big_pools_amended zeroTape 10 (by decide)

/-! ## C10: the small-join sampling pool -/

/-- The small-join pool always builds (no slice panic) for `n ≥ 0`, with
the length given by the source's index arithmetic. -/
theorem smallK1Pool_ok (kt : Nat → Nat) (n : Int) (hn : 0 ≤ n) :
    ∃ pool, smallK1Pool kt n = .ok pool ∧
      pool.length = n.toNat * 9 / 10 / 1000000 +
        (n.toNat * 11 / 10 / 1000000 - n.toNat / 1000000) := by
  have hlen : (shuffle (intRange 1 (((n * 11).tdiv 10).tdiv 1000000))
      (⟨kt, 0⟩ : Rng)).1.length = n.toNat * 11 / 10 / 1000000 := by
    rw [shuffle_length, intRange_one_length, domain_toNat_1e6 n hn]
  have h9 : n.toNat * 9 / 10 / 1000000 ≤ n.toNat * 11 / 10 / 1000000 :=
    Nat.div_le_div_right (Nat.div_le_div_right (Nat.mul_le_mul_left _ (by omega)))
  have hmid : n.toNat / 1000000 ≤ n.toNat * 11 / 10 / 1000000 := by
    apply Nat.div_le_div_right
    calc n.toNat = n.toNat * 10 / 10 := by omega
    _ ≤ n.toNat * 11 / 10 :=
      Nat.div_le_div_right (Nat.mul_le_mul_left _ (by omega))
  obtain ⟨p, hp, hlp⟩ := splitPool_ok _
    (n.toNat * 9 / 10 / 1000000) (n.toNat / 1000000)
    (n.toNat * 11 / 10 / 1000000)
    (by rw [hlen]; exact h9) hmid (le_of_eq hlen.symm)
  refine ⟨p, ?_, hlp⟩
  rw [smallK1Pool]
  dsimp only
  exact hp

/-- A small-join row never panics when the pool is non-empty. -/
theorem joinSmallRow_ok (pool : List Int) (df : UniformFloat)
    (hp : pool ≠ []) (r : Rng) :
    ∃ row r', joinSmallRow pool df r = .ok (row, r') := by
  obtain ⟨x, hcx, _⟩ := choose_nonempty_some pool r hp
  refine ⟨⟨x, formatIdPlain x,
      (UniformFloat.sample df ⟨r.tape, r.pos + 1⟩).1⟩,
    (UniformFloat.sample df ⟨r.tape, r.pos + 1⟩).2, ?_⟩
  rw [joinSmallRow, hcx]

/-- **C10 counterexample.** At `n = 1_000_000` (which satisfies the
claim's precondition `n ≥ 1e6`), the assembled pool `kx` of
`generate_join_dataset_small` is empty, and a call with `batch_size = 1`
panics at the per-row `choose(..).unwrap()` instead of never panicking;
conversely at `n = 909_091 < 1e6` the pool is non-empty and the call
returns a batch instead of panicking. -/
theorem small_pool_boundary_counterexample :
    smallK1Pool zeroTape 1000000 = .ok [] ∧
    generate_join_dataset_small zeroTape zeroTape 1000000 1 =
      .error .unwrapFailed ∧
    smallK1Pool zeroTape 909091 = .ok [1] ∧
    (generate_join_dataset_small zeroTape zeroTape 909091 1).map
      (fun rows => rows.map (fun row => (row.id1, row.id4))) =
      .ok [(1, "id1")] :=
  ⟨rfl, rfl, rfl, rfl⟩

/-- **C10 (amended).** The pool `kx` of `generate_join_dataset_small` has
length `⌊0.9n/1e6⌋ + (⌊1.1n/1e6⌋ − ⌊n/1e6⌋)`; it is non-empty — and the
per-row `choose(..).unwrap()` therefore cannot panic — under the
precondition `n ≥ 1_111_112` (the least bound making the first slice
non-empty; `n ≥ 1e6` does not suffice, and some `n < 1e6` do not panic
either), and then every call returns a full batch of `batch_size` rows. -/
theorem small_pool_amended (t kt : Nat → Nat) (n bs : Int)
    (hn : 1111112 ≤ n) (hbs : 0 ≤ bs) :
    ∃ pool rows, smallK1Pool kt n = .ok pool ∧
      pool.length = n.toNat * 9 / 10 / 1000000 +
        (n.toNat * 11 / 10 / 1000000 - n.toNat / 1000000) ∧
      pool ≠ [] ∧
      generate_join_dataset_small t kt n bs = .ok rows ∧
      rows.length = bs.toNat := by
  have hn0 : 0 ≤ n := by omega
  obtain ⟨pool, hpool, hlen⟩ := smallK1Pool_ok kt n hn0
  have hm : 1111112 ≤ n.toNat := by omega
  have hne : pool ≠ [] := by
    have h1 : 1000000 ≤ n.toNat * 9 / 10 := by omega
    have h2 : 1 ≤ n.toNat * 9 / 10 / 1000000 := by omega
    intro hemp
    rw [hemp] at hlen
    simp only [List.length_nil] at hlen
    omega
  have hstep : ∀ r, ∃ x r',
      joinSmallRow pool ⟨1, 100⟩ r = .ok (x, r') :=
    fun r => joinSmallRow_ok pool ⟨1, 100⟩ hne r
  obtain ⟨rows, rfin, hrows, hrlen⟩ :=
    genRowsE_ok (joinSmallRow pool ⟨1, 100⟩) hstep bs.toNat ⟨t, 0⟩
  refine ⟨pool, rows, hpool, hlen, hne, ?_, hrlen⟩
  have hf : uniformFloatTryFrom (1 : ℚ) 100 = .ok ⟨1, 100⟩ := by
    rw [uniformFloatTryFrom, if_pos (by norm_num : (1 : ℚ) ≤ 100)]
  rw [generate_join_dataset_small]
  simp only [hpool, ok_bind, hf, hrows]
  rfl

/-- Witness for C10 (amended) at the concrete input `t = kt = zeroTape`,
`n = 1_111_112`, `batch_size = 1`. -/
theorem small_pool_amended_witness :
    ∃ pool rows, smallK1Pool zeroTape 1111112 = .ok pool ∧
      pool.length = (1111112 : Int).toNat * 9 / 10 / 1000000 +
        ((1111112 : Int).toNat * 11 / 10 / 1000000 -
          (1111112 : Int).toNat / 1000000) ∧
      pool ≠ [] ∧
      generate_join_dataset_small zeroTape zeroTape 1111112 1 = .ok rows ∧
      rows.length = (1 : Int).toNat :=
  small_pool_amended zeroTape zeroTape 1111112 1 (by decide) (by decide)

/-! ## C3: the medium-join k2 pool -/

/-- Both medium-join pools always build for `n ≥ 0`, and both have the
same length — the one computed with the `1e6` slice divisors, also for
`k2` whose domain scale is `1e3`. -/
theorem mediumPools_ok (kt : Nat → Nat) (n : Int) (hn : 0 ≤ n) :
    ∃ p1 p2, mediumPools kt n = .ok (p1, p2) ∧
      p1.length = n.toNat * 9 / 10 / 1000000 +
        (n.toNat * 11 / 10 / 1000000 - n.toNat / 1000000) ∧
      p2.length = n.toNat * 9 / 10 / 1000000 +
        (n.toNat * 11 / 10 / 1000000 - n.toNat / 1000000) := by
  have hl1 : (shuffle (intRange 1 (((n * 11).tdiv 10).tdiv 1000000))
      (⟨kt, 0⟩ : Rng)).1.length = n.toNat * 11 / 10 / 1000000 := by
    rw [shuffle_length, intRange_one_length, domain_toNat_1e6 n hn]
  have hl2 : (shuffle (intRange 1 (((n * 11).tdiv 10).tdiv 1000))
      (shuffle (intRange 1 (((n * 11).tdiv 10).tdiv 1000000))
        (⟨kt, 0⟩ : Rng)).2).1.length = n.toNat * 11 / 10 / 1000 := by
    rw [shuffle_length, intRange_one_length, domain_toNat_1e3 n hn]
  have h9 : n.toNat * 9 / 10 / 1000000 ≤ n.toNat * 11 / 10 / 1000000 :=
    Nat.div_le_div_right (Nat.div_le_div_right (Nat.mul_le_mul_left _ (by omega)))
  have hmid : n.toNat / 1000000 ≤ n.toNat * 11 / 10 / 1000000 := by
    apply Nat.div_le_div_right
    calc n.toNat = n.toNat * 10 / 10 := by omega
    _ ≤ n.toNat * 11 / 10 :=
      Nat.div_le_div_right (Nat.mul_le_mul_left _ (by omega))
  have hwide : n.toNat * 11 / 10 / 1000000 ≤ n.toNat * 11 / 10 / 1000 :=
    Nat.div_le_div_left (by omega) (by omega)
  obtain ⟨p1, hp1, hlp1⟩ := splitPool_ok _
    (n.toNat * 9 / 10 / 1000000) (n.toNat / 1000000)
    (n.toNat * 11 / 10 / 1000000)
    (by rw [hl1]; exact h9) hmid (le_of_eq hl1.symm)
  obtain ⟨p2, hp2, hlp2⟩ := splitPool_ok _
    (n.toNat * 9 / 10 / 1000000) (n.toNat / 1000000)
    (n.toNat * 11 / 10 / 1000000)
    (by rw [hl2]; exact le_trans h9 hwide) hmid (by rw [hl2]; exact hwide)
  refine ⟨p1, p2, ?_, hlp1, hlp2⟩
  rw [mediumPools]
  dsimp only
  simp only [hp1, ok_bind, hp2]
  rfl

/-- **C3 (code bug evidence).** At `n = 10^7`, the sampling pool for the
second key column of `generate_join_dataset_medium` has 10 elements —
its slice bounds are computed with the `1e6` divisors copied from the
`k1` block — whereas the per-column algorithm with `k2`'s own scale of
`1e3` prescribes `⌊0.9n/1e3⌋ + (⌊1.1n/1e3⌋ − ⌊n/1e3⌋)` = 10000
elements. -/
theorem medium_k2_pool_scale_bug (kt : Nat → Nat) :
    ∃ p1 p2, mediumPools kt 10000000 = .ok (p1, p2) ∧
      p2.length = 10 ∧ ¬ p2.length = 9000 + 1000 := by
  obtain ⟨p1, p2, hp, _, hl2⟩ := mediumPools_ok kt 10000000 (by decide)
  refine ⟨p1, p2, hp, ?_, ?_⟩
  · rw [hl2]
    decide
  · rw [hl2]
    decide

/-! ## C5: mirrored string ids in join-big -/

/-- Like `choose_nonempty_some`, with the chosen element written as the
`getD` of the drawn index. -/
theorem choose_nonempty_getD (l : List Int) (r : Rng) (hl : l ≠ []) :
    choose l r =
      (some (l.getD (r.tape r.pos % l.length) 0), ⟨r.tape, r.pos + 1⟩) := by
  have hlen : 0 < l.length := List.length_pos.mpr hl
  have hidx : r.tape r.pos % l.length < l.length := Nat.mod_lt _ hlen
  rw [choose_nonempty l r hl, List.get?_eq_get hidx]
  congr 1
  rw [List.getD_eq_get?, List.get?_eq_get hidx]
  rfl

/-- **C5.** In `generate_join_dataset_big`'s row, `id4` is `"id"` ++ the
unpadded decimal of the first sampled key, `id5` the same for the second
sampled key (drawn at the next tape position), and `id6` is derived from
the *second* sampled key as well (source line 444 formats `k2`, not
`k3`): it equals `id5`, and whenever `id1`/`id2` are non-null the string
ids mirror exactly those integer values. -/
theorem big_mirrored_ids (p1 p2 p3 : List Int) (dnas : UniformInt)
    (df : UniformFloat) (nas : Int) (r : Rng)
    (h1 : p1 ≠ []) (h2 : p2 ≠ []) (h3 : p3 ≠ []) :
    ∃ row r',
      joinBigRow p1 p2 p3 dnas df nas r = .ok (row, r') ∧
      row.id4 = formatIdPlain (p1.getD (r.tape r.pos % p1.length) 0) ∧
      row.id5 = formatIdPlain (p2.getD (r.tape (r.pos + 1) % p2.length) 0) ∧
      row.id6 = formatIdPlain (p2.getD (r.tape (r.pos + 1) % p2.length) 0) ∧
      row.id6 = row.id5 ∧
      (∀ v, row.id1 = some v → row.id4 = formatIdPlain v) ∧
      (∀ v, row.id2 = some v → row.id5 = formatIdPlain v ∧
        row.id6 = formatIdPlain v) := by
  rw [joinBigRow, choose_nonempty_getD p1 r h1]
  dsimp only
  rw [choose_nonempty_getD p2 _ h2]
  dsimp only
  rw [choose_nonempty_getD p3 _ h3]
  dsimp only
  refine ⟨_, _, rfl, rfl, rfl, rfl, rfl, ?_, ?_⟩
  · intro v hv
    have hk := nullGate_const _ _ _ _ _ hv
    rw [hk]
  · intro v hv
    have hk := nullGate_const _ _ _ _ _ hv
    rw [hk]
    exact ⟨rfl, rfl⟩

/-- Witness for C5 at concrete pools and tape. -/
theorem big_mirrored_ids_witness :
    ∃ row r',
      joinBigRow [5] [7] [9] ⟨0, 100⟩ ⟨1, 100⟩ 0 ⟨zeroTape, 0⟩ =
        .ok (row, r') ∧
      row.id4 = formatIdPlain
        (([5] : List Int).getD (zeroTape 0 % ([5] : List Int).length) 0) ∧
      row.id5 = formatIdPlain
        (([7] : List Int).getD (zeroTape (0 + 1) % ([7] : List Int).length) 0) ∧
      row.id6 = formatIdPlain
        (([7] : List Int).getD (zeroTape (0 + 1) % ([7] : List Int).length) 0) ∧
      row.id6 = row.id5 ∧
      (∀ v, row.id1 = some v → row.id4 = formatIdPlain v) ∧
      (∀ v, row.id2 = some v → row.id5 = formatIdPlain v ∧
        row.id6 = formatIdPlain v) :=
  big_mirrored_ids [5] [7] [9] ⟨0, 100⟩ ⟨1, 100⟩ 0 ⟨zeroTape, 0⟩
    (by decide) (by decide) (by decide)

/-! ## C6: fail-fast, no partial batch -/

/-- `Except.error` short-circuits a bind. -/
theorem error_bind {ε α β : Type} (e : ε) (f : α → Except ε β) :
    (Except.error e : Except ε α) >>= f = .error e := rfl

/-- When both derived integer ranges are non-empty, `generate_groupby`
reduces to the row loop (no other construction step can fail). -/
theorem generate_groupby_ok (t : Nat → Nat) (n k nas bs : Int)
    (hk : 1 ≤ k) (hnk : 1 ≤ n.tdiv k) :
    generate_groupby t n k nas bs =
      .ok (genRows (groupbyRow ⟨1, k⟩ ⟨1, n.tdiv k⟩ ⟨1, 5⟩ ⟨1, 15⟩
        ⟨0, 100⟩ ⟨0, 100⟩ nas) bs.toNat ⟨t, 0⟩).1 := by
  have h1 : uniformIntTryFrom 1 k = .ok ⟨1, k⟩ := by
    rw [uniformIntTryFrom, if_pos hk]
  have h2 : uniformIntTryFrom 1 (n.tdiv k) = .ok ⟨1, n.tdiv k⟩ := by
    rw [uniformIntTryFrom, if_pos hnk]
  have h5 : uniformIntTryFrom 1 5 = .ok ⟨1, 5⟩ := by
    rw [uniformIntTryFrom, if_pos (by norm_num)]
  have h15 : uniformIntTryFrom 1 15 = .ok ⟨1, 15⟩ := by
    rw [uniformIntTryFrom, if_pos (by norm_num)]
  have hf : uniformFloatTryFrom 0 100 = .ok ⟨0, 100⟩ := by
    rw [uniformFloatTryFrom, if_pos (by norm_num : (0 : ℚ) ≤ 100)]
  have hnas : uniformIntTryFrom 0 100 = .ok ⟨0, 100⟩ := by
    rw [uniformIntTryFrom, if_pos (by norm_num)]
  rw [generate_groupby]
  simp only [h1, ok_bind, h2, h5, h15, hf, hnas]
  rfl

/-- With `k < 1` the very first distribution construction fails. -/
theorem generate_groupby_err_k (t : Nat → Nat) (n k nas bs : Int)
    (hk : ¬ 1 ≤ k) :
    generate_groupby t n k nas bs = .error .emptyRange := by
  have h1 : uniformIntTryFrom 1 k = .error .emptyRange := by
    rw [uniformIntTryFrom, if_neg hk]
  rw [generate_groupby]
  simp only [h1, error_bind]

/-- With `k ≥ 1` but `n / k < 1` the second distribution construction
fails. -/
theorem generate_groupby_err_nk (t : Nat → Nat) (n k nas bs : Int)
    (hk : 1 ≤ k) (hnk : ¬ 1 ≤ n.tdiv k) :
    generate_groupby t n k nas bs = .error .emptyRange := by
  have h1 : uniformIntTryFrom 1 k = .ok ⟨1, k⟩ := by
    rw [uniformIntTryFrom, if_pos hk]
  have h2 : uniformIntTryFrom 1 (n.tdiv k) = .error .emptyRange := by
    rw [uniformIntTryFrom, if_neg hnk]
  rw [generate_groupby]
  simp only [h1, ok_bind, h2, error_bind]

/-- **C6.** Fail-fast and all-or-nothing: `generate_groupby` returns an
error exactly when one of its derived sampling ranges is empty
(`k < 1` or `n/k < 1`), and the criterion does not depend on the seed,
`nas`, or `batch_size` — in particular the same error is returned with
`batch_size = 0`, i.e. before any row is generated; and every generator
that returns a batch returns exactly `batch_size.toNat` rows (no partial
batch exists). -/
theorem fail_fast_no_partial_batch :
    (∀ (t : Nat → Nat) (n k nas bs : Int),
      (∃ e, generate_groupby t n k nas bs = .error e) ↔
        (k < 1 ∨ n.tdiv k < 1)) ∧
    (∀ (t : Nat → Nat) (n k nas bs : Int) (rows : List GroupbyRow),
      generate_groupby t n k nas bs = .ok rows → rows.length = bs.toNat) ∧
    (∀ (t kt : Nat → Nat) (n bs : Int) (rows : List JoinSmallRow),
      generate_join_dataset_small t kt n bs = .ok rows →
        rows.length = bs.toNat) ∧
    (∀ (t kt : Nat → Nat) (n bs : Int) (rows : List JoinMediumRow),
      generate_join_dataset_medium t kt n bs = .ok rows →
        rows.length = bs.toNat) ∧
    (∀ (t kt : Nat → Nat) (n nas bs : Int) (rows : List JoinBigRow),
      generate_join_dataset_big t kt n nas bs = .ok rows →
        rows.length = bs.toNat) := by
  refine ⟨?_, ?_, ?_, ?_, ?_⟩
  · intro t n k nas bs
    constructor
    · rintro ⟨e, he⟩
      by_contra hcon
      push_neg at hcon
      rw [generate_groupby_ok t n k nas bs (by omega) (by omega)] at he
      cases he
    · intro h
      by_cases hk : 1 ≤ k
      · refine ⟨.emptyRange, generate_groupby_err_nk t n k nas bs hk ?_⟩
        omega
      · exact ⟨.emptyRange, generate_groupby_err_k t n k nas bs hk⟩
  · intro t n k nas bs rows h
    by_cases hk : 1 ≤ k
    · by_cases hnk : 1 ≤ n.tdiv k
      · rw [generate_groupby_ok t n k nas bs hk hnk] at h
        have := (Except.ok.injEq _ _).mp h
        rw [← this, genRows_length]
      · rw [generate_groupby_err_nk t n k nas bs hk hnk] at h
        cases h
    · rw [generate_groupby_err_k t n k nas bs hk] at h
      cases h
  · intro t kt n bs rows h
    rw [generate_join_dataset_small] at h
    cases hp : smallK1Pool kt n with
    | error e => rw [hp, error_bind] at h; cases h
    | ok pool =>
      rw [hp, ok_bind] at h
      have hf : uniformFloatTryFrom (1 : ℚ) 100 = .ok ⟨1, 100⟩ := by
        rw [uniformFloatTryFrom, if_pos (by norm_num : (1 : ℚ) ≤ 100)]
      rw [hf, ok_bind] at h
      dsimp only at h
      cases hr : genRowsE (joinSmallRow pool ⟨1, 100⟩) bs.toNat ⟨t, 0⟩ with
      | error e => rw [hr, error_bind] at h; cases h
      | ok q =>
        obtain ⟨xs, rfin⟩ := q
        rw [hr, ok_bind] at h
        have hxs := (Except.ok.injEq _ _).mp h
        rw [← hxs]
        exact genRowsE_length _ _ _ _ _ hr
  · intro t kt n bs rows h
    rw [generate_join_dataset_medium] at h
    cases hp : mediumPools kt n with
    | error e => rw [hp, error_bind] at h; cases h
    | ok pools =>
      obtain ⟨p1, p2⟩ := pools
      rw [hp, ok_bind] at h
      dsimp only at h
      have hf : uniformFloatTryFrom (1 : ℚ) 100 = .ok ⟨1, 100⟩ := by
        rw [uniformFloatTryFrom, if_pos (by norm_num : (1 : ℚ) ≤ 100)]
      rw [hf, ok_bind] at h
      cases hr : genRowsE (joinMediumRow p1 p2 ⟨1, 100⟩) bs.toNat ⟨t, 0⟩ with
      | error e => rw [hr, error_bind] at h; cases h
      | ok q =>
        obtain ⟨xs, rfin⟩ := q
        rw [hr, ok_bind] at h
        have hxs := (Except.ok.injEq _ _).mp h
        rw [← hxs]
        exact genRowsE_length _ _ _ _ _ hr
  · intro t kt n nas bs rows h
    rw [generate_join_dataset_big] at h
    cases hp : bigPools kt n with
    | error e => rw [hp, error_bind] at h; cases h
    | ok pools =>
      obtain ⟨p1, p2, p3⟩ := pools
      rw [hp, ok_bind] at h
      dsimp only at h
      have hf : uniformFloatTryFrom (1 : ℚ) 100 = .ok ⟨1, 100⟩ := by
        rw [uniformFloatTryFrom, if_pos (by norm_num : (1 : ℚ) ≤ 100)]
      have hnas : uniformIntTryFrom 0 100 = .ok ⟨0, 100⟩ := by
        rw [uniformIntTryFrom, if_pos (by norm_num)]
      rw [hf, ok_bind] at h
      rw [hnas, ok_bind] at h
      cases hr : genRowsE (joinBigRow p1 p2 p3 ⟨0, 100⟩ ⟨1, 100⟩ nas)
          bs.toNat ⟨t, 0⟩ with
      | error e => rw [hr, error_bind] at h; cases h
      | ok q =>
        obtain ⟨xs, rfin⟩ := q
        rw [hr, ok_bind] at h
        have hxs := (Except.ok.injEq _ _).mp h
        rw [← hxs]
        exact genRowsE_length _ _ _ _ _ hr

/-- Witness for C6 at concrete inputs: a valid group-by call returns a
full batch, an invalid one (`k = 0`) errors, and each join generator at
`n = 0`, `batch_size = 0` returns the empty batch. -/
theorem fail_fast_no_partial_batch_witness :
    ((∃ e, generate_groupby zeroTape 100 0 0 5 = .error e) ↔
      ((0 : Int) < 1 ∨ (100 : Int).tdiv 0 < 1)) ∧
    ([] : List GroupbyRow).length = (0 : Int).toNat ∧
    ([] : List JoinSmallRow).length = (0 : Int).toNat ∧
    ([] : List JoinMediumRow).length = (0 : Int).toNat ∧
    ([] : List JoinBigRow).length = (0 : Int).toNat :=
  ⟨fail_fast_no_partial_batch.1 zeroTape 100 0 0 5,
   fail_fast_no_partial_batch.2.1 zeroTape 100 10 0 0 [] rfl,
   fail_fast_no_partial_batch.2.2.1 zeroTape zeroTape 0 0 [] rfl,
   fail_fast_no_partial_batch.2.2.2.1 zeroTape zeroTape 0 0 [] rfl,
   fail_fast_no_partial_batch.2.2.2.2 zeroTape zeroTape 0 0 0 [] rfl⟩

/-! ## C7: range containment for generate_groupby -/

/-- Any sample of a non-empty uniform integer range lies in the closed
range. -/
theorem uniformInt_sample_mem (d : UniformInt) (h : d.lo ≤ d.hi) (r : Rng) :
    d.lo ≤ (d.sample r).1 ∧ (d.sample r).1 ≤ d.hi := by
  unfold UniformInt.sample Rng.draw
  dsimp only
  have hpos : 0 < d.hi - d.lo + 1 := by omega
  have h1 : 0 ≤ ((r.tape r.pos : Nat) : Int) % (d.hi - d.lo + 1) :=
    Int.emod_nonneg _ (by omega)
  have h2 : ((r.tape r.pos : Nat) : Int) % (d.hi - d.lo + 1) < d.hi - d.lo + 1 :=
    Int.emod_lt_of_pos _ hpos
  omega

/-- Any sample of a non-empty uniform float range lies in the closed
range. -/
theorem uniformFloat_sample_mem (d : UniformFloat) (h : d.lo ≤ d.hi)
    (r : Rng) : d.lo ≤ (d.sample r).1 ∧ (d.sample r).1 ≤ d.hi := by
  unfold UniformFloat.sample Rng.draw
  dsimp only
  have hq0 : (0 : ℚ) ≤ ((r.tape r.pos % 2 ^ 53 : Nat) : ℚ) := by positivity
  have hq1 : ((r.tape r.pos % 2 ^ 53 : Nat) : ℚ) / 2 ^ 53 ≤ 1 := by
    rw [div_le_one (by positivity)]
    have hlt : r.tape r.pos % 2 ^ 53 < 2 ^ 53 := Nat.mod_lt _ (by positivity)
    exact_mod_cast le_of_lt hlt
  constructor
  · have hnn : 0 ≤ (d.hi - d.lo) * ((r.tape r.pos % 2 ^ 53 : Nat) : ℚ) / 2 ^ 53 :=
      div_nonneg (mul_nonneg (by linarith) hq0) (by positivity)
    linarith
  · have hle : (d.hi - d.lo) * ((r.tape r.pos % 2 ^ 53 : Nat) : ℚ) / 2 ^ 53 ≤
        d.hi - d.lo := by
      rw [mul_div_assoc]
      calc (d.hi - d.lo) * (((r.tape r.pos % 2 ^ 53 : Nat) : ℚ) / 2 ^ 53) ≤
          (d.hi - d.lo) * 1 :=
        mul_le_mul_of_nonneg_left hq1 (by linarith)
      _ = d.hi - d.lo := mul_one _
    linarith

/-- Every non-null output of a null gate satisfies any property that all
generator outputs satisfy. -/
theorem nullGate_result {α : Type} (dnas : UniformInt) (nas : Int)
    (gen : Rng → α × Rng) (r : Rng) (P : α → Prop)
    (hgen : ∀ r', P (gen r').1) :
    ∀ v, (nullGate dnas nas gen r).1 = some v → P v := by
  rw [nullGate_eq]
  split_ifs
  · intro v hv
    have hv' : (gen ⟨r.tape, r.pos + 1⟩).1 = v := (Option.some.injEq _ _).mp hv
    exact hv' ▸ hgen _
  · intro v hv
    cases hv

/-- When the requested null percentage is at most the gate range's lower
bound, the gate never fires: the output is always non-null. -/
theorem nullGate_isSome {α : Type} (dnas : UniformInt) (nas : Int)
    (hlohi : dnas.lo ≤ dnas.hi) (h : nas ≤ dnas.lo) (gen : Rng → α × Rng)
    (r : Rng) : ((nullGate dnas nas gen r).1).isSome = true := by
  rw [nullGate_eq, if_pos]
  · rfl
  · have h1 : 0 ≤ ((r.tape r.pos : Nat) : Int) % (dnas.hi - dnas.lo + 1) :=
      Int.emod_nonneg _ (by omega)
    omega

/-- Row-level range containment for the group-by row generator. -/
theorem groupbyRow_ranges (k nk nas : Int) (hk : 1 ≤ k) (hnk : 1 ≤ nk)
    (r : Rng) :
    (∀ s, (groupbyRow ⟨1, k⟩ ⟨1, nk⟩ ⟨1, 5⟩ ⟨1, 15⟩ ⟨0, 100⟩ ⟨0, 100⟩
        nas r).1.id1 = some s → ∃ v, 1 ≤ v ∧ v ≤ k ∧ s = formatId3 v) ∧
    (∀ v, (groupbyRow ⟨1, k⟩ ⟨1, nk⟩ ⟨1, 5⟩ ⟨1, 15⟩ ⟨0, 100⟩ ⟨0, 100⟩
        nas r).1.id4 = some v → 1 ≤ v ∧ v ≤ k) ∧
    (∀ v, (groupbyRow ⟨1, k⟩ ⟨1, nk⟩ ⟨1, 5⟩ ⟨1, 15⟩ ⟨0, 100⟩ ⟨0, 100⟩
        nas r).1.id5 = some v → 1 ≤ v ∧ v ≤ k) ∧
    (∀ v, (groupbyRow ⟨1, k⟩ ⟨1, nk⟩ ⟨1, 5⟩ ⟨1, 15⟩ ⟨0, 100⟩ ⟨0, 100⟩
        nas r).1.id6 = some v → 1 ≤ v ∧ v ≤ nk) ∧
    (1 ≤ (groupbyRow ⟨1, k⟩ ⟨1, nk⟩ ⟨1, 5⟩ ⟨1, 15⟩ ⟨0, 100⟩ ⟨0, 100⟩
        nas r).1.v1 ∧
      (groupbyRow ⟨1, k⟩ ⟨1, nk⟩ ⟨1, 5⟩ ⟨1, 15⟩ ⟨0, 100⟩ ⟨0, 100⟩
        nas r).1.v1 ≤ 5) ∧
    (1 ≤ (groupbyRow ⟨1, k⟩ ⟨1, nk⟩ ⟨1, 5⟩ ⟨1, 15⟩ ⟨0, 100⟩ ⟨0, 100⟩
        nas r).1.v2 ∧
      (groupbyRow ⟨1, k⟩ ⟨1, nk⟩ ⟨1, 5⟩ ⟨1, 15⟩ ⟨0, 100⟩ ⟨0, 100⟩
        nas r).1.v2 ≤ 15) ∧
    (0 ≤ (groupbyRow ⟨1, k⟩ ⟨1, nk⟩ ⟨1, 5⟩ ⟨1, 15⟩ ⟨0, 100⟩ ⟨0, 100⟩
        nas r).1.v3 ∧
      (groupbyRow ⟨1, k⟩ ⟨1, nk⟩ ⟨1, 5⟩ ⟨1, 15⟩ ⟨0, 100⟩ ⟨0, 100⟩
        nas r).1.v3 ≤ 100) ∧
    (nas = 0 →
      ((groupbyRow ⟨1, k⟩ ⟨1, nk⟩ ⟨1, 5⟩ ⟨1, 15⟩ ⟨0, 100⟩ ⟨0, 100⟩
        nas r).1.id1.isSome = true ∧
      (groupbyRow ⟨1, k⟩ ⟨1, nk⟩ ⟨1, 5⟩ ⟨1, 15⟩ ⟨0, 100⟩ ⟨0, 100⟩
        nas r).1.id2.isSome = true ∧
      (groupbyRow ⟨1, k⟩ ⟨1, nk⟩ ⟨1, 5⟩ ⟨1, 15⟩ ⟨0, 100⟩ ⟨0, 100⟩
        nas r).1.id3.isSome = true ∧
      (groupbyRow ⟨1, k⟩ ⟨1, nk⟩ ⟨1, 5⟩ ⟨1, 15⟩ ⟨0, 100⟩ ⟨0, 100⟩
        nas r).1.id4.isSome = true ∧
      (groupbyRow ⟨1, k⟩ ⟨1, nk⟩ ⟨1, 5⟩ ⟨1, 15⟩ ⟨0, 100⟩ ⟨0, 100⟩
        nas r).1.id5.isSome = true ∧
      (groupbyRow ⟨1, k⟩ ⟨1, nk⟩ ⟨1, 5⟩ ⟨1, 15⟩ ⟨0, 100⟩ ⟨0, 100⟩
        nas r).1.id6.isSome = true)) := by
  unfold groupbyRow
  dsimp only
  refine ⟨?_, ?_, ?_, ?_, ?_, ?_, ?_, ?_⟩
  · apply nullGate_result
    intro r'
    dsimp only
    obtain ⟨ha, hb⟩ := uniformInt_sample_mem ⟨1, k⟩ hk r'
    exact ⟨_, ha, hb, rfl⟩
  · apply nullGate_result
    intro r'
    exact uniformInt_sample_mem ⟨1, k⟩ hk r'
  · apply nullGate_result
    intro r'
    exact uniformInt_sample_mem ⟨1, k⟩ hk r'
  · apply nullGate_result
    intro r'
    exact uniformInt_sample_mem ⟨1, nk⟩ hnk r'
  · exact uniformInt_sample_mem ⟨1, 5⟩ (by norm_num) _
  · exact uniformInt_sample_mem ⟨1, 15⟩ (by norm_num) _
  · exact uniformFloat_sample_mem ⟨0, 100⟩ (by norm_num) _
  · intro h0
    subst h0
    refine ⟨?_, ?_, ?_, ?_, ?_, ?_⟩ <;>
      exact nullGate_isSome ⟨0, 100⟩ 0 (by norm_num) (by norm_num) _ _

/-- **C7.** Range containment: for every valid call of `generate_groupby`
(`n ≥ k ≥ 1`, `0 ≤ nas ≤ 100`) and every row of a returned batch, each
non-null value lies in its declared closed interval — the numeric part of
`id1` and the values of `id4`, `id5` lie in `[1, k]`, `id6` in
`[1, n/k]`, `v1` in `[1, 5]`, `v2` in `[1, 15]`, `v3` in `[0, 100]` — and
with `nas = 0` no nullable column contains a null. -/
theorem groupby_range_containment (n k nas : Int) (hk : 1 ≤ k)
    (hkn : k ≤ n) (hnas0 : 0 ≤ nas) (hnas1 : nas ≤ 100) :
    ∀ (t : Nat → Nat) (bs : Int) (rows : List GroupbyRow),
      generate_groupby t n k nas bs = .ok rows →
      ∀ row ∈ rows,
        (∀ s, row.id1 = some s → ∃ v, 1 ≤ v ∧ v ≤ k ∧ s = formatId3 v) ∧
        (∀ v, row.id4 = some v → 1 ≤ v ∧ v ≤ k) ∧
        (∀ v, row.id5 = some v → 1 ≤ v ∧ v ≤ k) ∧
        (∀ v, row.id6 = some v → 1 ≤ v ∧ v ≤ n.tdiv k) ∧
        (1 ≤ row.v1 ∧ row.v1 ≤ 5) ∧
        (1 ≤ row.v2 ∧ row.v2 ≤ 15) ∧
        (0 ≤ row.v3 ∧ row.v3 ≤ 100) ∧
        (nas = 0 → (row.id1.isSome = true ∧ row.id2.isSome = true ∧
          row.id3.isSome = true ∧ row.id4.isSome = true ∧
          row.id5.isSome = true ∧ row.id6.isSome = true)) := by
  have hn0 : 0 ≤ n := by omega
  have hnk : 1 ≤ n.tdiv k := by
    rw [Int.tdiv_eq_ediv hn0 (by omega)]
    rw [Int.le_ediv_iff_mul_le (by omega)]
    omega
  intro t bs rows h
  rw [generate_groupby_ok t n k nas bs hk hnk] at h
  have hrows := (Except.ok.injEq _ _).mp h
  rw [← hrows]
  exact genRows_mem _ _ (fun r => groupbyRow_ranges k (n.tdiv k) nas hk hnk r)
    bs.toNat ⟨t, 0⟩

/-- Witness for C7 at the spec's example scenario `n = 100`, `k = 10`,
`nas = 0`. -/
theorem groupby_range_containment_witness :
    (1 : Int) ≤ 10 ∧ (10 : Int) ≤ 100 ∧ (0 : Int) ≤ 0 ∧ (0 : Int) ≤ 100 ∧
    (∀ (t : Nat → Nat) (bs : Int) (rows : List GroupbyRow),
      generate_groupby t 100 10 0 bs = .ok rows →
      ∀ row ∈ rows,
        (∀ s, row.id1 = some s →
          ∃ v, 1 ≤ v ∧ v ≤ 10 ∧ s = formatId3 v) ∧
        (∀ v, row.id4 = some v → 1 ≤ v ∧ v ≤ 10) ∧
        (∀ v, row.id5 = some v → 1 ≤ v ∧ v ≤ 10) ∧
        (∀ v, row.id6 = some v → 1 ≤ v ∧ v ≤ (100 : Int).tdiv 10) ∧
        (1 ≤ row.v1 ∧ row.v1 ≤ 5) ∧
        (1 ≤ row.v2 ∧ row.v2 ≤ 15) ∧
        (0 ≤ row.v3 ∧ row.v3 ≤ 100) ∧
        ((0 : Int) = 0 → (row.id1.isSome = true ∧ row.id2.isSome = true ∧
          row.id3.isSome = true ∧ row.id4.isSome = true ∧
          row.id5.isSome = true ∧ row.id6.isSome = true))) :=
  ⟨by decide, by decide, by decide, by decide,
   groupby_range_containment 100 10 0 (by decide) (by decide) (by decide)
     (by decide)⟩

/-! ## C2: null-gate ordering and RNG consumption -/

/-- The number of non-null nullable cells of a group-by row. -/
def countSomeNullable (row : GroupbyRow) : Nat :=
  (if row.id1.isSome then 1 else 0) + (if row.id2.isSome then 1 else 0) +
  (if row.id3.isSome then 1 else 0) + (if row.id4.isSome then 1 else 0) +
  (if row.id5.isSome then 1 else 0) + (if row.id6.isSome then 1 else 0)

/-- RNG accounting for one null gate: the gate consumes one tape cell;
the generator's cells are consumed exactly on the non-null path. -/
theorem nullGate_rng {α : Type} (dnas : UniformInt) (nas : Int)
    (gen : Rng → α × Rng) (c : Nat)
    (hgen : ∀ r', (gen r').2 = ⟨r'.tape, r'.pos + c⟩) (r : Rng) :
    (nullGate dnas nas gen r).2 =
      ⟨r.tape, r.pos + 1 +
        (if (nullGate dnas nas gen r).1.isSome then c else 0)⟩ := by
  rw [nullGate_eq]
  by_cases h : dnas.lo + ((r.tape r.pos : Nat) : Int) %
      (dnas.hi - dnas.lo + 1) ≥ nas
  · rw [if_pos h, hgen]
    simp
  · rw [if_neg h]
    simp

/-- A null gate emits a null exactly when its (first-sampled) gate draw
is below `nas`. -/
theorem nullGate_none_iff {α : Type} (dnas : UniformInt) (nas : Int)
    (gen : Rng → α × Rng) (r : Rng) :
    ((nullGate dnas nas gen r).1 = none) ↔
      (dnas.lo + ((r.tape r.pos : Nat) : Int) % (dnas.hi - dnas.lo + 1) <
        nas) := by
  rw [nullGate_eq]
  split_ifs with h
  · constructor
    · intro hc
      exact absurd hc (by simp)
    · intro hc
      omega
  · constructor
    · intro _
      omega
    · intro _
      rfl

/-- **C2 counterexample.** In `generate_join_dataset_big`'s row loop, an
all-null row (`nas = 100`) still consumes 7 tape cells — the three key
draws happen unconditionally *before* the null gates, and `id4 = "id5"`
shows the first key draw was not skipped although `id1` is null.  Under
the claim (gate sampled before the value draw, value draw skipped
entirely on the null path, exactly one sample per field) such a row would
consume exactly 4 cells, one per nullable field. -/
theorem null_gate_ordering_counterexample :
    joinBigRow [5] [7] [9] ⟨0, 100⟩ ⟨1, 100⟩ 100 ⟨zeroTape, 0⟩ =
      .ok (⟨none, none, none, formatIdPlain 5, formatIdPlain 7,
        formatIdPlain 7, none⟩, ⟨zeroTape, 7⟩) ∧
    (7 : Nat) ≠ 4 :=
  ⟨rfl, by decide⟩

/-- **C2 (amended).** In `generate_groupby`, every nullable field follows
gate-then-generate with skip-on-null: per row the stream advances by
exactly `9 + (number of non-null nullable cells)` — six gates plus
`v1`,`v2`,`v3`, plus one value draw per non-null nullable cell — and the
first cell of the row is the `id1` gate (null iff that draw `% 101` is
`< nas`).  In `generate_join_dataset_big`, the three keys are drawn
unconditionally at the start of each row (their draws are *not* skipped
when the corresponding id is nulled), each `id1`/`id2`/`id3` gate
consumes one cell with no further value draw, and only `v2` follows
gate-then-generate with skip-on-null: the row consumes
`7 + (1 if v2 non-null)` cells and the `id1` gate reads cell `pos + 3`. -/
theorem null_gate_ordering_amended :
    (∀ (dk dnk d5 d15 : UniformInt) (df : UniformFloat) (nas : Int)
        (r : Rng),
      (groupbyRow dk dnk d5 d15 df ⟨0, 100⟩ nas r).2.tape = r.tape ∧
      (groupbyRow dk dnk d5 d15 df ⟨0, 100⟩ nas r).2.pos =
        r.pos + 9 +
          countSomeNullable (groupbyRow dk dnk d5 d15 df ⟨0, 100⟩ nas r).1 ∧
      ((groupbyRow dk dnk d5 d15 df ⟨0, 100⟩ nas r).1.id1 = none ↔
        ((r.tape r.pos : Nat) : Int) % 101 < nas)) ∧
    (∀ (p1 p2 p3 : List Int) (df : UniformFloat) (nas : Int) (r : Rng)
        (row : JoinBigRow) (r' : Rng),
      p1 ≠ [] → p2 ≠ [] → p3 ≠ [] →
      joinBigRow p1 p2 p3 ⟨0, 100⟩ df nas r = .ok (row, r') →
      r'.tape = r.tape ∧
      r'.pos = r.pos + 7 + (if row.v2.isSome then 1 else 0) ∧
      (row.id1 = none ↔
        ((r.tape (r.pos + 3) : Nat) : Int) % 101 < nas)) := by
  constructor
  · intro dk dnk d5 d15 df nas r
    have E1 : ∀ r' : Rng,
        (nullGate ⟨0, 100⟩ nas
          (fun r => (formatId3 (UniformInt.sample dk r).1,
            (UniformInt.sample dk r).2)) r').2 =
        ⟨r'.tape, r'.pos + 1 +
          (if (nullGate ⟨0, 100⟩ nas
            (fun r => (formatId3 (UniformInt.sample dk r).1,
              (UniformInt.sample dk r).2)) r').1.isSome then 1 else 0)⟩ :=
      fun r' => nullGate_rng _ nas _ 1 (fun _ => rfl) r'
    have E2 : ∀ r' : Rng,
        (nullGate ⟨0, 100⟩ nas
          (fun r => (formatId3 (UniformInt.sample dnk r).1,
            (UniformInt.sample dnk r).2)) r').2 =
        ⟨r'.tape, r'.pos + 1 +
          (if (nullGate ⟨0, 100⟩ nas
            (fun r => (formatId3 (UniformInt.sample dnk r).1,
              (UniformInt.sample dnk r).2)) r').1.isSome then 1 else 0)⟩ :=
      fun r' => nullGate_rng _ nas _ 1 (fun _ => rfl) r'
    have E3 : ∀ r' : Rng,
        (nullGate ⟨0, 100⟩ nas
          (fun r => (formatId10 (UniformInt.sample dnk r).1,
            (UniformInt.sample dnk r).2)) r').2 =
        ⟨r'.tape, r'.pos + 1 +
          (if (nullGate ⟨0, 100⟩ nas
            (fun r => (formatId10 (UniformInt.sample dnk r).1,
              (UniformInt.sample dnk r).2)) r').1.isSome then 1 else 0)⟩ :=
      fun r' => nullGate_rng _ nas _ 1 (fun _ => rfl) r'
    have E4 : ∀ r' : Rng,
        (nullGate ⟨0, 100⟩ nas (UniformInt.sample dk) r').2 =
        ⟨r'.tape, r'.pos + 1 +
          (if (nullGate ⟨0, 100⟩ nas (UniformInt.sample dk) r').1.isSome
            then 1 else 0)⟩ :=
      fun r' => nullGate_rng _ nas _ 1 (fun _ => rfl) r'
    have E6 : ∀ r' : Rng,
        (nullGate ⟨0, 100⟩ nas (UniformInt.sample dnk) r').2 =
        ⟨r'.tape, r'.pos + 1 +
          (if (nullGate ⟨0, 100⟩ nas (UniformInt.sample dnk) r').1.isSome
            then 1 else 0)⟩ :=
      fun r' => nullGate_rng _ nas _ 1 (fun _ => rfl) r'
    have S : ∀ (d : UniformInt) (r' : Rng),
        (UniformInt.sample d r').2 = ⟨r'.tape, r'.pos + 1⟩ :=
      fun _ _ => rfl
    have SF : ∀ (d : UniformFloat) (r' : Rng),
        (UniformFloat.sample d r').2 = ⟨r'.tape, r'.pos + 1⟩ :=
      fun _ _ => rfl
    refine ⟨?_, ?_, ?_⟩
    · unfold groupbyRow
      dsimp only
      simp only [E1, E2, E3, E4, E6]
      simp only [S, SF]
    · unfold groupbyRow
      dsimp only
      simp only [countSomeNullable]
      simp only [E1, E2, E3, E4, E6]
      simp only [S, SF]
      omega
    · unfold groupbyRow
      dsimp only
      rw [nullGate_none_iff]
      dsimp only
      constructor
      · intro h
        omega
      · intro h
        omega
  · intro p1 p2 p3 df nas r row r' h1 h2 h3 hrow
    rw [joinBigRow, choose_nonempty_getD p1 r h1] at hrow
    dsimp only at hrow
    rw [choose_nonempty_getD p2 _ h2] at hrow
    dsimp only at hrow
    rw [choose_nonempty_getD p3 _ h3] at hrow
    dsimp only at hrow
    rw [Except.ok.injEq, Prod.mk.injEq] at hrow
    obtain ⟨hrow1, hrow2⟩ := hrow
    subst hrow1
    subst hrow2
    have EP : ∀ (k : Int) (r' : Rng),
        (nullGate ⟨0, 100⟩ nas (fun r => (k, r)) r').2 =
        ⟨r'.tape, r'.pos + 1 +
          (if (nullGate ⟨0, 100⟩ nas (fun r => (k, r)) r').1.isSome
            then 0 else 0)⟩ :=
      fun k r' => nullGate_rng _ nas _ 0 (fun _ => rfl) r'
    have EF : ∀ r' : Rng,
        (nullGate ⟨0, 100⟩ nas (UniformFloat.sample df) r').2 =
        ⟨r'.tape, r'.pos + 1 +
          (if (nullGate ⟨0, 100⟩ nas (UniformFloat.sample df) r').1.isSome
            then 1 else 0)⟩ :=
      fun r' => nullGate_rng _ nas _ 1 (fun _ => rfl) r'
    refine ⟨?_, ?_, ?_⟩
    · simp only [EP, EF]
    · simp only [EP, EF, ite_self]
    · dsimp only
      rw [nullGate_none_iff]
      dsimp only
      have hpos : r.pos + 1 + 1 + 1 = r.pos + 3 := by omega
      rw [hpos]
      constructor
      · intro h
        omega
      · intro h
        omega

/-- Witness for C2 (amended): the big-join part applied at concrete
pools, tape and an all-null row. -/
theorem null_gate_ordering_amended_witness :
    (⟨zeroTape, 7⟩ : Rng).tape = (⟨zeroTape, 0⟩ : Rng).tape ∧
    (⟨zeroTape, 7⟩ : Rng).pos = (⟨zeroTape, 0⟩ : Rng).pos + 7 +
      (if (none : Option ℚ).isSome then 1 else 0) ∧
    ((none : Option Int) = none ↔
      ((zeroTape ((⟨zeroTape, 0⟩ : Rng).pos + 3) : Nat) : Int) % 101 <
        100) :=
  null_gate_ordering_amended.2 [5] [7] [9] ⟨1, 100⟩ 100 ⟨zeroTape, 0⟩
    ⟨none, none, none, formatIdPlain 5, formatIdPlain 7, formatIdPlain 7,
      none⟩
    ⟨zeroTape, 7⟩ (by decide) (by decide) (by decide) rfl

/-! ## C9: id2 is drawn from the high-cardinality range -/

/-- A tape whose cell 3 (the id2 value draw of row 0) hits the top of the
`1..=d` range and whose other cells keep every null gate open. -/
def c9Tape (d : Int) : Nat → Nat :=
  fun i => if i = 3 then (d - 1).toNat else 100

/-- **C9.** In `generate_groupby`, the numeric part of `id2` is drawn
from `uniform_int(1, n/k)` — the same high-cardinality distribution as
`id3`/`id6`, not the grouping range `[1, k]` — and is formatted with
3-digit zero padding (`formatId3`); consequently, whenever `n/k > k`
there is a seed stream on which `id2`'s numeric part exceeds `k` (it
attains `n/k` itself). -/
theorem groupby_id2_high_cardinality (n k nas : Int) (hk : 1 ≤ k)
    (hlt : k < n.tdiv k) (hnas0 : 0 ≤ nas) (hnas1 : nas ≤ 100) :
    (∀ (t : Nat → Nat) (bs : Int) (rows : List GroupbyRow),
      generate_groupby t n k nas bs = .ok rows →
      ∀ row ∈ rows, ∀ s, row.id2 = some s →
        ∃ v, 1 ≤ v ∧ v ≤ n.tdiv k ∧ s = formatId3 v) ∧
    (∃ (t : Nat → Nat) (row : GroupbyRow),
      generate_groupby t n k nas 1 = .ok [row] ∧
      row.id2 = some (formatId3 (n.tdiv k)) ∧ k < n.tdiv k) := by
  have hnk : 1 ≤ n.tdiv k := by omega
  constructor
  · intro t bs rows h
    rw [generate_groupby_ok t n k nas bs hk hnk] at h
    have hrows := (Except.ok.injEq _ _).mp h
    rw [← hrows]
    apply genRows_mem
    intro r
    unfold groupbyRow
    dsimp only
    apply nullGate_result
    intro r'
    dsimp only
    obtain ⟨ha, hb⟩ := uniformInt_sample_mem ⟨1, n.tdiv k⟩ hnk r'
    exact ⟨_, ha, hb, rfl⟩
  · refine ⟨c9Tape (n.tdiv k),
      (groupbyRow ⟨1, k⟩ ⟨1, n.tdiv k⟩ ⟨1, 5⟩ ⟨1, 15⟩ ⟨0, 100⟩ ⟨0, 100⟩
        nas ⟨c9Tape (n.tdiv k), 0⟩).1, ?_, ?_, hlt⟩
    · rw [generate_groupby_ok (c9Tape (n.tdiv k)) n k nas 1 hk hnk]
      rfl
    · have ht0 : c9Tape (n.tdiv k) 0 = 100 := rfl
      have ht2 : c9Tape (n.tdiv k) 2 = 100 := rfl
      have ht3 : c9Tape (n.tdiv k) 3 = (n.tdiv k - 1).toNat := rfl
      have hR1 : (nullGate ⟨0, 100⟩ nas
          (fun r => (formatId3 (UniformInt.sample ⟨1, k⟩ r).1,
            (UniformInt.sample ⟨1, k⟩ r).2))
          ⟨c9Tape (n.tdiv k), 0⟩).2 = ⟨c9Tape (n.tdiv k), 2⟩ := by
        rw [nullGate_eq, if_pos]
        · rfl
        · dsimp only
          rw [ht0]
          omega
      unfold groupbyRow
      dsimp only
      rw [hR1, nullGate_eq, if_pos]
      · dsimp only
        unfold UniformInt.sample Rng.draw
        dsimp only
        rw [show (2 + 1 : Nat) = 3 from rfl, ht3,
          Int.toNat_of_nonneg (by omega : (0 : Int) ≤ n.tdiv k - 1),
          show n.tdiv k - 1 + 1 = n.tdiv k from by omega,
          Int.emod_eq_of_lt (by omega) (by omega),
          show (1 : Int) + (n.tdiv k - 1) = n.tdiv k from by omega]
      · dsimp only
        rw [ht2]
        omega

/-- Witness for C9 at `n = 100`, `k = 3` (`n/k = 33 > 3`), `nas = 0`. -/
theorem groupby_id2_high_cardinality_witness :
    (1 : Int) ≤ 3 ∧ (3 : Int) < (100 : Int).tdiv 3 ∧ (0 : Int) ≤ 0 ∧
    (0 : Int) ≤ 100 ∧
    ((∀ (t : Nat → Nat) (bs : Int) (rows : List GroupbyRow),
      generate_groupby t 100 3 0 bs = .ok rows →
      ∀ row ∈ rows, ∀ s, row.id2 = some s →
        ∃ v, 1 ≤ v ∧ v ≤ (100 : Int).tdiv 3 ∧ s = formatId3 v) ∧
    (∃ (t : Nat → Nat) (row : GroupbyRow),
      generate_groupby t 100 3 0 1 = .ok [row] ∧
      row.id2 = some (formatId3 ((100 : Int).tdiv 3)) ∧
      (3 : Int) < (100 : Int).tdiv 3)) :=
  ⟨by decide, by decide, by decide, by decide,
   groupby_id2_high_cardinality 100 3 0 (by decide) (by decide) (by decide)
     (by decide)⟩

end Falsa
